import Mathlib

/-!
Verification development for the Hadoop-cluster orchestrator
(`src/app/src/hadoop/hadoop_cluster.py`) and the compute-provider client
contract exercised by `src/app/src/hadoop/gce_api_test.py`.

The Python code is shallowly embedded: each orchestrator method becomes a
Lean function over explicit provider/registry oracles, returning its result
together with the list of externally visible events (provider calls and
registry writes) in the order the Python code performs them.
-/

/-- Decimal digit character, as produced by Python `%d` formatting. -/
def decDigitChar : Nat → Char
  | 0 => '0'
  | 1 => '1'
  | 2 => '2'
  | 3 => '3'
  | 4 => '4'
  | 5 => '5'
  | 6 => '6'
  | 7 => '7'
  | 8 => '8'
  | 9 => '9'
  | _ => '*'

/-- Fuel-driven digit expansion (structural recursion so that concrete
values reduce inside the kernel). -/
def decReprGo : Nat → Nat → List Char
  | 0, _ => []
  | fuel + 1, n =>
    if n < 10 then [decDigitChar n]
    else decReprGo fuel (n / 10) ++ [decDigitChar (n % 10)]

/-- Decimal representation of a natural number (list of digit characters),
modelling Python `%d`.  `decVal_decRepr` below proves it is a faithful
decimal representation. -/
def decRepr (n : Nat) : List Char := decReprGo (n + 1) n

/-- Value of a digit-character list read as a decimal numeral. -/
def decVal (cs : List Char) : Nat :=
  cs.foldl (fun v c => v * 10 + (c.toNat - 48)) 0

theorem decVal_go (cs : List Char) (a : Nat) :
    cs.foldl (fun v c => v * 10 + (c.toNat - 48)) a =
      a * 10 ^ cs.length + decVal cs := by
  induction cs generalizing a with
  | nil => simp [decVal]
  | cons c cs ih =>
    simp only [List.foldl_cons, decVal, List.length_cons]
    rw [ih, ih (0 * 10 + (c.toNat - 48))]
    ring

theorem decDigitChar_toNat (d : Nat) (hd : d < 10) :
    (decDigitChar d).toNat = 48 + d := by
  interval_cases d <;> decide

theorem decVal_decReprGo : ∀ fuel n, n < fuel → decVal (decReprGo fuel n) = n := by
  intro fuel
  induction fuel with
  | zero => intro n h; omega
  | succ fuel ih =>
    intro n h
    by_cases h10 : n < 10
    · simp [decReprGo, h10, decVal, decDigitChar_toNat n h10]
    · have hlt : n / 10 < n :=
        Nat.div_lt_self (Nat.lt_of_lt_of_le (by decide) (Nat.le_of_not_lt h10)) (by decide)
      have hfuel : n / 10 < fuel := by omega
      have hmod : n % 10 < 10 := Nat.mod_lt _ (by decide)
      simp only [decReprGo, if_neg h10, decVal, List.foldl_append, List.foldl_cons,
        List.foldl_nil]
      rw [show (decReprGo fuel (n / 10)).foldl (fun v c => v * 10 + (c.toNat - 48)) 0 =
            decVal (decReprGo fuel (n / 10)) from rfl, ih (n / 10) hfuel,
          decDigitChar_toNat _ hmod]
      omega

/-- `decRepr` really is the decimal representation: reading it back yields
the original number. -/
theorem decVal_decRepr (n : Nat) : decVal (decRepr n) = n :=
  decVal_decReprGo (n + 1) n (Nat.lt_succ_self n)

theorem decReprGo_ne_nil (fuel n : Nat) : decReprGo (fuel + 1) n ≠ [] := by
  by_cases h : n < 10 <;> simp [decReprGo, h]

theorem decRepr_ne_nil (n : Nat) : decRepr n ≠ [] := decReprGo_ne_nil n n

theorem decDigitChar_isDigit (d : Nat) (hd : d < 10) :
    (decDigitChar d).isDigit = true := by
  interval_cases d <;> decide

theorem decReprGo_all_digits : ∀ fuel n, ∀ c ∈ decReprGo fuel n, c.isDigit = true := by
  intro fuel
  induction fuel with
  | zero => intro n c hc; simp [decReprGo] at hc
  | succ fuel ih =>
    intro n c hc
    by_cases h : n < 10
    · simp only [decReprGo, if_pos h, List.mem_singleton] at hc
      subst hc
      exact decDigitChar_isDigit n h
    · simp only [decReprGo, if_neg h] at hc
      rcases List.mem_append.1 hc with h1 | h2
      · exact ih (n / 10) c h1
      · simp only [List.mem_singleton] at h2
        subst h2
        exact decDigitChar_isDigit _ (Nat.mod_lt _ (by decide))

theorem decRepr_all_digits (n : Nat) :
    ∀ c ∈ decRepr n, c.isDigit = true :=
  decReprGo_all_digits (n + 1) n

/-- Zero-padding to width 3, as digit-character list: Python `'%03d' % n`. -/
def pad3List (n : Nat) : List Char :=
  List.replicate (3 - (decRepr n).length) '0' ++ decRepr n

/-- Python `'%03d' % n` as a string. -/
def pad3 (n : Nat) : String := String.mk (pad3List n)

theorem decVal_replicate_zero_append (k : Nat) (cs : List Char) :
    decVal (List.replicate k '0' ++ cs) = decVal cs := by
  induction k with
  | zero => simp
  | succ k ih =>
    simp only [List.replicate_succ, List.cons_append, decVal, List.foldl_cons]
    simpa [decVal] using ih

theorem decVal_pad3List (n : Nat) : decVal (pad3List n) = n := by
  rw [pad3List, decVal_replicate_zero_append, decVal_decRepr]

theorem pad3_injective (m n : Nat) (h : pad3 m = pad3 n) : m = n := by
  have hl : pad3List m = pad3List n := by
    have := congrArg String.data h
    simpa [pad3] using this
  have := congrArg decVal hl
  rwa [decVal_pad3List, decVal_pad3List] at this

theorem pad3List_all_digits (n : Nat) :
    ∀ c ∈ pad3List n, c.isDigit = true := by
  intro c hc
  rcases List.mem_append.1 hc with h1 | h2
  · have := List.eq_of_mem_replicate h1
    subst this
    decide
  · exact decRepr_all_digits n c h2

theorem pad3List_ne_nil (n : Nat) : pad3List n ≠ [] := by
  intro h
  rw [pad3List] at h
  rcases List.append_eq_nil.1 h with ⟨_, h2⟩
  exact decRepr_ne_nil n h2

/-! ## Cluster configuration and naming (`HadoopCluster.__init__`) -/

/-- The resolved cluster configuration used by the orchestrator
(`self.prefix`, `self.project`, ..., set up in `HadoopCluster.__init__`).
`pfx` is the Python `prefix` attribute; `bucket` stands for
`appconfig.AppConfig.GetAppConfig().cloud_storage_bucket` (external). -/
structure ClusterConfig where
  pfx : String
  project : String
  zone : String
  machinetype : String
  image : String
  network : String
  numWorkers : Nat
  customCommand : String
  bucket : String
deriving DecidableEq, Repr

/-- `self.master_name = self.prefix + '-' + self.MASTER_NAME`. -/
def masterName (c : ClusterConfig) : String := c.pfx ++ "-hadoop-master"

/-- `self.worker_name_template = '%s-%s-%%03d' % (self.prefix, self.WORKER_NAME_CORE)`. -/
def workerNameTemplate (c : ClusterConfig) : String :=
  c.pfx ++ "-hadoop-worker-%03d"

/-- `HadoopCluster._WorkerName`: `self.worker_name_template % index`
(the `%03d` zero-padded decimal of the index substituted into the template). -/
def workerName (c : ClusterConfig) (i : Nat) : String :=
  c.pfx ++ "-hadoop-worker-" ++ pad3 i

/-- `self.worker_name_pattern = '^%s-%s-\\d+$' % (self.prefix, self.WORKER_NAME_CORE)`. -/
def workerNamePattern (c : ClusterConfig) : String :=
  "^" ++ c.pfx ++ "-hadoop-worker-\\d+$"

/-- `machinetype_scratch_disk = '%s-d' % machinetype`. -/
def machinetypeScratchDisk (c : ClusterConfig) : String := c.machinetype ++ "-d"

/-- `machinetype_persistent_disk = machinetype`. -/
def machinetypePersistentDisk (c : ClusterConfig) : String := c.machinetype

/-- `HadoopCluster._GetTmpCloudStorage`. -/
def tmpCloudStorage (c : ClusterConfig) : String := c.bucket ++ "/hadoop"

/-- `HadoopCluster.INSTANCE_ROLES`. -/
def instanceRoles : List (String × List String) :=
  [("master", ["NameNode", "JobTracker"]),
   ("worker", ["DataNode", "TaskTracker"])]

/-! ## Events and provider oracles -/

/-- A metadata value: Python puts both strings and ints in the metadata dict. -/
inductive MetaVal where
  | str (s : String)
  | int (n : Nat)
deriving DecidableEq, Repr

/-- Externally visible actions of the orchestrator, in program order:
calls on the compute provider (GceApi) and durable writes to the
datastore registry. -/
inductive Event where
  | getDisk (name : String)
  | createDisk (name : String)
  | createInstance (name : String) (metadata : List (String × MetaVal))
  | getInstance (name : String)
  | listInstances (filterExpr : String)
  | deleteInstance (name : String)
  | remoteCall (host : String)
  | regPutCluster (status : String)
  | regSetStatus (status : String)
  | regSetMasterInstance (name : String)
  | regSetMasterIp (ip : String)
  | regPutInstance (name : String) (role : String) (rpckey : String)
  | regSetInstanceIp (name : String) (ip : String)
  | regDeleteCluster
deriving DecidableEq, Repr

/-- Instance descriptor returned by `GceApi.GetInstance`, reduced to the
fields `_WaitForExternalIp` reads:
`instance['networkInterfaces'][0]['accessConfigs'][0]['natIP']`. -/
structure AccessConfig where
  natIP : Option String
deriving DecidableEq, Repr

structure NetworkInterface where
  accessConfigs : List AccessConfig
deriving DecidableEq, Repr

structure InstanceDesc where
  networkInterfaces : List NetworkInterface
deriving DecidableEq, Repr

/-- The `try: return instance['networkInterfaces'][0]['accessConfigs'][0]['natIP']
except (KeyError, IndexError): pass` extraction: any missing key or index
yields `none`. -/
def extractNatIp (d : InstanceDesc) : Option String :=
  match d.networkInterfaces with
  | [] => none
  | ni :: _ =>
    match ni.accessConfigs with
    | [] => none
    | ac :: _ => ac.natIP

/-- Outcome of one warm-up RPC to the master
(`urlfetch.fetch`, may raise `urlfetch.DownloadError`). -/
inductive RemoteOutcome where
  | connFailure
  | response (status : Nat) (body : String)
deriving DecidableEq, Repr

/-- Deterministic oracle describing the behaviour of the external
collaborators during one run: the compute provider's answers and the
uuid4 RPC-key stream (keyed by instance name). `getInstance name k` is
the descriptor returned by the k-th `GetInstance(name)` poll of the
IP-discovery loop; `remote k` is the outcome of the k-th warm-up RPC. -/
structure Provider where
  getDisk : String → Bool
  createDisk : String → Bool
  createInstance : String → Bool
  getInstance : String → Nat → Option InstanceDesc
  remote : Nat → RemoteOutcome
  rpckeys : String → String

/-! ## `_WaitForExternalIp` -/

def INSTANCE_IP_ADDRESS_MAX_CHECK_TIMES : Nat := 60

/-- The IP seen by the poll loop at attempt `k` (counting from 0):
`GetInstance` result, if any, run through the natIP extraction. -/
def ipAt (p : Provider) (name : String) (k : Nat) : Option String :=
  (p.getInstance name k).bind extractNatIp

/-- Body of `HadoopCluster._WaitForExternalIp`: poll `GetInstance` up to
`remaining` more times (attempt counter starts at `polls`), returning the
first extracted address together with the total number of polls made, or
the timeout error.  The trace lists the `GetInstance` calls. -/
def waitForExternalIpAux (p : Provider) (name : String) (polls : Nat) :
    Nat → (Except String (String × Nat)) × List Event
  | 0 => (.error ("External IP address time out for " ++ name), [])
  | remaining + 1 =>
    match ipAt p name polls with
    | some ip => (.ok (ip, polls + 1), [Event.getInstance name])
    | none =>
      let r := waitForExternalIpAux p name (polls + 1) remaining
      (r.1, Event.getInstance name :: r.2)

/-- `HadoopCluster._WaitForExternalIp` with its budget of
`INSTANCE_IP_ADDRESS_MAX_CHECK_TIMES = 60` attempts. -/
def waitForExternalIp (p : Provider) (name : String) :
    (Except String (String × Nat)) × List Event :=
  waitForExternalIpAux p name 0 INSTANCE_IP_ADDRESS_MAX_CHECK_TIMES

theorem waitForExternalIpAux_success (p : Provider) (name : String) (ip : String) :
    ∀ k r s, k < r →
      (∀ j, j < k → ipAt p name (s + j) = none) →
      ipAt p name (s + k) = some ip →
      waitForExternalIpAux p name s r =
        (.ok (ip, s + k + 1), List.replicate (k + 1) (Event.getInstance name)) := by
  intro k
  induction k with
  | zero =>
    intro r s hk _ hhit
    match r, hk with
    | r + 1, _ =>
      simp only [waitForExternalIpAux]
      rw [show s + 0 = s from rfl] at hhit
      rw [hhit]
      simp
  | succ k ih =>
    intro r s hk hmiss hhit
    match r, hk with
    | r + 1, hk =>
      simp only [waitForExternalIpAux]
      have h0 : ipAt p name s = none := by
        have := hmiss 0 (Nat.succ_pos k)
        simpa using this
      rw [h0]
      have hrec := ih r (s + 1) (Nat.lt_of_succ_lt_succ hk)
        (fun j hj => by
          have := hmiss (j + 1) (Nat.succ_lt_succ hj)
          rwa [show s + (j + 1) = s + 1 + j by omega] at this)
        (by rwa [show s + 1 + k = s + (k + 1) by omega])
      rw [hrec]
      have hn : s + 1 + k + 1 = s + (k + 1) + 1 := by omega
      rw [hn]
      simp [List.replicate_succ]

theorem waitForExternalIpAux_timeout (p : Provider) (name : String) :
    ∀ r s, (∀ j, j < r → ipAt p name (s + j) = none) →
      (waitForExternalIpAux p name s r).1 =
        .error ("External IP address time out for " ++ name) := by
  intro r
  induction r with
  | zero => intro s _; rfl
  | succ r ih =>
    intro s hmiss
    simp only [waitForExternalIpAux]
    have h0 : ipAt p name s = none := by
      have := hmiss 0 (Nat.succ_pos r)
      simpa using this
    rw [h0]
    exact ih (s + 1) (fun j hj => by
      have := hmiss (j + 1) (Nat.succ_lt_succ hj)
      rwa [show s + (j + 1) = s + 1 + j by omega] at this)

/-- C4: for one instance, if the provider descriptor yields no external
address on the first N-1 polls and a well-formed address on poll N
(N within the budget of 60), `_WaitForExternalIp` returns that address
after exactly N `GetInstance` polls; if no address appears within the
full budget, the result is the `ClusterSetUpError` timeout failure. -/
theorem C4_ip_discovery_poll_count (p : Provider) (name ip : String) (N : Nat)
    (h1 : 1 ≤ N) (h60 : N ≤ 60) :
    ((∀ j, j + 1 < N → ipAt p name j = none) → ipAt p name (N - 1) = some ip →
      waitForExternalIp p name =
        (.ok (ip, N), List.replicate N (Event.getInstance name)))
    ∧ ((∀ j, j < 60 → ipAt p name j = none) →
      (waitForExternalIp p name).1 =
        .error ("External IP address time out for " ++ name)) := by
  constructor
  · intro hmiss hhit
    have hs := waitForExternalIpAux_success p name ip (N - 1) 60 0 (by omega)
      (fun j hj => by simpa using hmiss j (by omega))
      (by simpa using hhit)
    have e1 : 0 + (N - 1) + 1 = N := by omega
    have e2 : N - 1 + 1 = N := by omega
    rw [waitForExternalIp, INSTANCE_IP_ADDRESS_MAX_CHECK_TIMES, hs, e1, e2]
  · intro hmiss
    exact waitForExternalIpAux_timeout p name 60 0 (fun j hj => by simpa using hmiss j hj)

/-- Descriptor carrying a single well-formed external address. -/
def descWithIp (ip : String) : InstanceDesc :=
  ⟨[⟨[⟨some ip⟩]⟩]⟩

/-- Concrete provider for the C4 witness: address appears on the second poll. -/
def c4Provider : Provider where
  getDisk := fun _ => false
  createDisk := fun _ => true
  createInstance := fun _ => true
  getInstance := fun _ k => if k = 1 then some (descWithIp ("10.0.0.9")) else none
  remote := fun _ => RemoteOutcome.connFailure
  rpckeys := fun _ => "key"

/-- Concrete provider for the C4 witness: no address, ever. -/
def c4ProviderNever : Provider where
  getDisk := fun _ => false
  createDisk := fun _ => true
  createInstance := fun _ => true
  getInstance := fun _ _ => none
  remote := fun _ => RemoteOutcome.connFailure
  rpckeys := fun _ => "key"

theorem C4_ip_discovery_poll_count_witness :
    waitForExternalIp c4Provider ("inst") =
      (.ok (("10.0.0.9"), 2), List.replicate 2 (Event.getInstance ("inst")))
    ∧ (waitForExternalIp c4ProviderNever ("inst")).1 =
      .error ("External IP address time out for inst") := by
  constructor
  · exact (C4_ip_discovery_poll_count c4Provider ("inst") ("10.0.0.9") 2
      (by decide) (by decide)).1
      (fun j hj => by
        have hj0 : j = 0 := by omega
        subst hj0
        rfl)
      rfl
  · exact (C4_ip_discovery_poll_count c4ProviderNever ("inst") ("x") 1
      (by decide) (by decide)).2
      (fun j hj => rfl)

/-! ## Master warm-up loop (second half of `_WaitForInstances`) -/

def MASTER_WARM_UP_MAX_CHECK_TIMES : Nat := 20

/-- Character-list pattern test: the pattern starts the list. -/
def leadsWith : List Char → List Char → Bool
  | [], _ => true
  | _ :: _, [] => false
  | p :: ps, c :: cs => (p == c) && leadsWith ps cs

/-- Character-list substring test: the pattern occurs somewhere in the list. -/
def hasSubList (pat : List Char) : List Char → Bool
  | [] => pat.isEmpty
  | c :: cs => leadsWith pat (c :: cs) || hasSubList pat cs

/-- `response.content.find('success') != -1`: the body contains the literal
substring `success`. -/
def containsSuccess (s : String) : Bool :=
  hasSubList ("success").data s.data

/-- The warm-up loop of `HadoopCluster._WaitForInstances`: up to `remaining`
more RPCs to the master (attempt counter starts at `polls`).  A connection
failure (`urlfetch.DownloadError`) is swallowed and retried; a response is
conclusive only when its status code is 200; then a body containing
`success` returns normally and any other body raises
`ClusterSetUpError('Hadoop master failed to start')`.  Returns the result
together with the number of RPC attempts actually made. -/
def masterWarmUpAux (remote : Nat → RemoteOutcome) (polls : Nat) :
    Nat → (Except String Unit) × Nat
  | 0 => (.error ("Hadoop master set up timed out"), polls)
  | remaining + 1 =>
    match remote polls with
    | .connFailure => masterWarmUpAux remote (polls + 1) remaining
    | .response status body =>
      if status = 200 then
        if containsSuccess body then (.ok (), polls + 1)
        else (.error ("Hadoop master failed to start"), polls + 1)
      else masterWarmUpAux remote (polls + 1) remaining

/-- The warm-up loop with its budget of `MASTER_WARM_UP_MAX_CHECK_TIMES = 20`. -/
def masterWarmUp (remote : Nat → RemoteOutcome) : (Except String Unit) × Nat :=
  masterWarmUpAux remote 0 MASTER_WARM_UP_MAX_CHECK_TIMES

/-- An attempt outcome after which the loop keeps polling: a channel-level
connection failure, or a response whose status code is not 200. -/
def inconclusiveOutcome : RemoteOutcome → Bool
  | .connFailure => true
  | .response status _ => status != 200

theorem masterWarmUpAux_conclusive (remote : Nat → RemoteOutcome) :
    ∀ k r s, k < r →
      (∀ j, j < k → inconclusiveOutcome (remote (s + j)) = true) →
      ∀ body, remote (s + k) = .response 200 body →
      masterWarmUpAux remote s r =
        (if containsSuccess body then .ok ()
         else .error ("Hadoop master failed to start"), s + k + 1) := by
  intro k
  induction k with
  | zero =>
    intro r s hk _ body hhit
    match r, hk with
    | r + 1, _ =>
      simp only [masterWarmUpAux]
      rw [show s + 0 = s from rfl] at hhit
      rw [hhit]
      simp only [if_pos rfl]
      by_cases hb : containsSuccess body <;> simp [hb]
  | succ k ih =>
    intro r s hk hpre body hhit
    match r, hk with
    | r + 1, hk =>
      simp only [masterWarmUpAux]
      have h0 : inconclusiveOutcome (remote s) = true := by
        have := hpre 0 (Nat.succ_pos k)
        simpa using this
      have hrec := ih r (s + 1) (Nat.lt_of_succ_lt_succ hk)
        (fun j hj => by
          have := hpre (j + 1) (Nat.succ_lt_succ hj)
          rwa [show s + (j + 1) = s + 1 + j by omega] at this)
        body (by rwa [show s + 1 + k = s + (k + 1) by omega])
      have hn : s + 1 + k + 1 = s + (k + 1) + 1 := by omega
      match hr : remote s with
      | .connFailure =>
        rw [hrec, hn]
      | .response status body' =>
        rw [hr] at h0
        have hst : ¬ status = 200 := by
          simpa [inconclusiveOutcome] using h0
        simp only [if_neg hst]
        rw [hrec, hn]

theorem masterWarmUpAux_timeout (remote : Nat → RemoteOutcome) :
    ∀ r s, (∀ j, j < r → inconclusiveOutcome (remote (s + j)) = true) →
      masterWarmUpAux remote s r =
        (.error ("Hadoop master set up timed out"), s + r) := by
  intro r
  induction r with
  | zero => intro s _; simp [masterWarmUpAux]
  | succ r ih =>
    intro s hpre
    simp only [masterWarmUpAux]
    have h0 : inconclusiveOutcome (remote s) = true := by
      have := hpre 0 (Nat.succ_pos r)
      simpa using this
    have hrec := ih (s + 1) (fun j hj => by
      have := hpre (j + 1) (Nat.succ_lt_succ hj)
      rwa [show s + (j + 1) = s + 1 + j by omega] at this)
    have hn : s + 1 + r = s + (r + 1) := by omega
    match hr : remote s with
    | .connFailure => rw [hrec, hn]
    | .response status body' =>
      rw [hr] at h0
      have hst : ¬ status = 200 := by
        simpa [inconclusiveOutcome] using h0
      simp only [if_neg hst]
      rw [hrec, hn]

/-- Oracle refuting C3 as stated: every warm-up attempt yields a received
response (status 500) whose body lacks the `success` token. -/
def c3NonSuccessOracle : Nat → RemoteOutcome :=
  fun _ => RemoteOutcome.response 500 ("boom")

/-- C3 counterexample: with a response received on attempt 1 whose body
lacks `success` (status 500), the claim says the run transitions to ERROR
on that same attempt with no further polling; the code instead keeps
polling and times out after all 20 attempts. -/
theorem C3_warm_up_counterexample :
    masterWarmUp c3NonSuccessOracle = (.error ("Hadoop master set up timed out"), 20)
    ∧ masterWarmUp c3NonSuccessOracle ≠ (.error ("Hadoop master failed to start"), 1) := by
  constructor
  · rfl
  · intro h
    exact absurd (congrArg Prod.snd h) (by decide)

/-- C3 (amended): a status-200 response whose body contains `success` on
attempt k (within the budget of 20) makes the warm-up succeed after exactly
k polls; a status-200 response whose body lacks `success` raises the
master-failure error on that same attempt with no further polling; a
connection failure — or a response whose status is not 200 — consumes
exactly one attempt and is retried; exhausting the budget without a
conclusive (status-200) response yields the timeout error after 20 polls. -/
theorem C3_warm_up_polling (remote : Nat → RemoteOutcome) (k : Nat) (body : String)
    (h1 : 1 ≤ k) (h20 : k ≤ 20)
    (hpre : ∀ j, j + 1 < k → inconclusiveOutcome (remote j) = true) :
    (remote (k - 1) = .response 200 body →
      (containsSuccess body = true → masterWarmUp remote = (.ok (), k))
      ∧ (containsSuccess body = false →
          masterWarmUp remote = (.error ("Hadoop master failed to start"), k)))
    ∧ ((∀ j, j < 20 → inconclusiveOutcome (remote j) = true) →
        masterWarmUp remote = (.error ("Hadoop master set up timed out"), 20)) := by
  constructor
  · intro hhit
    have hc := masterWarmUpAux_conclusive remote (k - 1) 20 0 (by omega)
      (fun j hj => by simpa using hpre j (by omega))
      body (by simpa using hhit)
    have e1 : 0 + (k - 1) + 1 = k := by omega
    rw [masterWarmUp, MASTER_WARM_UP_MAX_CHECK_TIMES]
    constructor
    · intro hb
      rw [hc, e1, if_pos hb]
    · intro hb
      rw [hc, e1, if_neg (by rw [hb]; exact Bool.false_ne_true)]
  · intro hall
    have := masterWarmUpAux_timeout remote 20 0 (fun j hj => by simpa using hall j hj)
    rw [masterWarmUp, MASTER_WARM_UP_MAX_CHECK_TIMES, this]

/-- Witness oracle: connection failure on attempt 1, then a status-200
body containing `success` on attempt 2. -/
def c3OkOracle : Nat → RemoteOutcome := fun k =>
  if k = 1 then RemoteOutcome.response 200 ("startup success done")
  else RemoteOutcome.connFailure

/-- Witness oracle: a status-200 body lacking `success` on attempt 1. -/
def c3FailOracle : Nat → RemoteOutcome := fun _ =>
  RemoteOutcome.response 200 ("error: hdfs died")

/-- Witness oracle: connection failure on every attempt. -/
def c3ConnOracle : Nat → RemoteOutcome := fun _ => RemoteOutcome.connFailure

theorem C3_warm_up_polling_witness :
    masterWarmUp c3OkOracle = (.ok (), 2)
    ∧ masterWarmUp c3FailOracle = (.error ("Hadoop master failed to start"), 1)
    ∧ masterWarmUp c3ConnOracle = (.error ("Hadoop master set up timed out"), 20) := by
  refine ⟨?_, ?_, ?_⟩
  · exact ((C3_warm_up_polling c3OkOracle 2 ("startup success done")
      (by decide) (by decide)
      (fun j hj => by
        have hj0 : j = 0 := by omega
        subst hj0
        rfl)).1 rfl).1 (by decide)
  · exact ((C3_warm_up_polling c3FailOracle 1 ("error: hdfs died")
      (by decide) (by decide)
      (fun j hj => by omega)).1 rfl).2 (by decide)
  · exact (C3_warm_up_polling c3ConnOracle 1 ("")
      (by decide) (by decide)
      (fun j hj => by omega)).2 (fun j hj => rfl)

/-! ## `_StartInstance` and provisioning -/

/-- `HadoopCluster._MaybeCreatePersistentDisk`: check disk existence with
`GetDisk`; if absent, create it, raising
`ClusterSetUpError('Failed to create persistent disk ...')` on failure. -/
def maybeCreatePersistentDisk (p : Provider) (diskName : String) :
    (Except String Unit) × List Event :=
  if p.getDisk diskName then (.ok (), [Event.getDisk diskName])
  else if p.createDisk diskName then
    (.ok (), [Event.getDisk diskName, Event.createDisk diskName])
  else
    (.error ("Failed to create persistent disk " ++ diskName),
     [Event.getDisk diskName, Event.createDisk diskName])

/-- The persisted `datastore.InstanceInfo` record fields written by
`_StartInstance` (external IP is populated later). -/
structure InstanceInfoRec where
  name : String
  role : String
  rpckey : String
deriving DecidableEq, Repr

/-- The metadata dict assembled by `_StartInstance` (before the role keys
are added).  `disk-id` is `'google-%s' % disk_id`. -/
def baseMetadata (c : ClusterConfig) (rpckey diskId : String) :
    List (String × MetaVal) :=
  [("startup-script-url", MetaVal.str (tmpCloudStorage c ++ "/startup-script.sh")),
   ("rpckey", MetaVal.str rpckey),
   ("disk-id", MetaVal.str ("google-" ++ diskId)),
   ("hostname-prefix", MetaVal.str c.pfx),
   ("num-workers", MetaVal.int c.numWorkers),
   ("hadoop-master", MetaVal.str (masterName c)),
   ("hadoop-worker-template", MetaVal.str (workerNameTemplate c)),
   ("tmp-cloud-storage", MetaVal.str (tmpCloudStorage c)),
   ("custom-command", MetaVal.str c.customCommand),
   ("hadoop-patch", MetaVal.str ("hadoop-1.2.1.patch"))]

/-- Full metadata for a node of the given role: the base dict plus one
truthy key per daemon command of `INSTANCE_ROLES[role]`. -/
def fullMetadata (c : ClusterConfig) (rpckey diskId : String)
    (commands : List String) : List (String × MetaVal) :=
  baseMetadata c rpckey diskId ++ commands.map (fun cmd => (cmd, MetaVal.int 1))

/-- `HadoopCluster._StartInstance`, in source order: in persistent-disk
mode the disk existence check / creation runs first; then the role is
validated against `INSTANCE_ROLES` (raising
`ClusterSetUpError('Invalid instance role name: ...')`); then
`CreateInstance` is called; on success the `InstanceInfo` record is
persisted and, for the master role, attached as the cluster's master
reference (`SetMasterInstance`). -/
def startInstance (c : ClusterConfig) (p : Provider) (instanceName role : String)
    (persistentDisk : Bool) : (Except String InstanceInfoRec) × List Event :=
  let pdName := instanceName ++ "-pd"
  let diskStep : (Except String Unit) × List Event :=
    if persistentDisk then maybeCreatePersistentDisk p pdName else (.ok (), [])
  match diskStep.1 with
  | .error e => (.error e, diskStep.2)
  | .ok () =>
    let diskId := if persistentDisk then pdName else "ephemeral-disk-0"
    let rpckey := p.rpckeys instanceName
    match instanceRoles.lookup role with
    | none => (.error ("Invalid instance role name: " ++ role), diskStep.2)
    | some commands =>
      let md := fullMetadata c rpckey diskId commands
      if p.createInstance instanceName then
        (.ok ⟨instanceName, role, rpckey⟩,
         diskStep.2 ++ [Event.createInstance instanceName md,
                        Event.regPutInstance instanceName role rpckey] ++
           (if role == "master" then [Event.regSetMasterInstance instanceName] else []))
      else
        (.error ("Failed to start instance " ++ instanceName),
         diskStep.2 ++ [Event.createInstance instanceName md])

theorem instanceRoles_lookup_none (role : String)
    (h1 : role ≠ "master") (h2 : role ≠ "worker") :
    instanceRoles.lookup role = none := by
  have hb1 : (role == "master") = false := beq_eq_false_iff_ne.2 h1
  have hb2 : (role == "worker") = false := beq_eq_false_iff_ne.2 h2
  simp [instanceRoles, List.lookup, hb1, hb2]

def isCreateInstanceEvent : Event → Bool
  | .createInstance _ _ => true
  | _ => false

/-- Concrete configuration used by counterexamples and witnesses. -/
def cEx : ClusterConfig :=
  ⟨"managed", "proj", "zone-a", "n1-standard-4", "img", "net", 5, "", "bkt"⟩

/-- Provider for the C2 counterexample: the persistent disk does not exist
yet and its creation succeeds. -/
def c2Provider : Provider where
  getDisk := fun _ => false
  createDisk := fun _ => true
  createInstance := fun _ => true
  getInstance := fun _ _ => none
  remote := fun _ => RemoteOutcome.connFailure
  rpckeys := fun _ => "k"

/-- C2 counterexample: starting an instance with the invalid role
`hamster` in persistent-disk mode does fail with the invalid-role
`ClusterSetUpError`, but only after `GetDisk` and `CreateDisk` provider
calls have been made — contradicting the claim that no provider call
(no GetDisk, CreateDisk, or CreateInstance) precedes the failure in both
modes. -/
theorem C2_invalid_role_counterexample :
    (startInstance cEx c2Provider ("inst") ("hamster") true).1 =
      .error ("Invalid instance role name: hamster")
    ∧ Event.getDisk ("inst-pd") ∈ (startInstance cEx c2Provider ("inst") ("hamster") true).2
    ∧ Event.createDisk ("inst-pd") ∈ (startInstance cEx c2Provider ("inst") ("hamster") true).2 := by
  refine ⟨rfl, ?_, ?_⟩ <;> decide

/-- C2 (amended): a role outside {master, worker} is rejected with the
invalid-role `ClusterSetUpError` before any `CreateInstance` call in both
modes; in scratch-disk mode no provider call at all is made; in
persistent-disk mode the disk existence check (and possibly disk
creation) precedes the role check, and whenever the disk step succeeds
the failure raised is the invalid-role error. -/
theorem C2_invalid_role_rejected (c : ClusterConfig) (p : Provider) (n role : String)
    (h1 : role ≠ "master") (h2 : role ≠ "worker") :
    startInstance c p n role false =
      (.error ("Invalid instance role name: " ++ role), [])
    ∧ (∀ e ∈ (startInstance c p n role true).2, isCreateInstanceEvent e = false)
    ∧ ((maybeCreatePersistentDisk p (n ++ "-pd")).1 = .ok () →
        (startInstance c p n role true).1 =
          .error ("Invalid instance role name: " ++ role)) := by
  have hlk := instanceRoles_lookup_none role h1 h2
  refine ⟨?_, ?_, ?_⟩
  · simp [startInstance, hlk]
  · intro e he
    by_cases hg : p.getDisk (n ++ "-pd") <;>
      by_cases hc : p.createDisk (n ++ "-pd") <;>
      simp [startInstance, maybeCreatePersistentDisk, hg, hc, hlk] at he <;>
      first
        | (rw [he]; rfl)
        | (rcases he with he | he <;> rw [he] <;> rfl)
  · intro hok
    by_cases hg : p.getDisk (n ++ "-pd")
    · simp [startInstance, maybeCreatePersistentDisk, if_pos hg, hlk]
    · by_cases hc : p.createDisk (n ++ "-pd")
      · simp [startInstance, maybeCreatePersistentDisk, if_neg hg, if_pos hc, hlk]
      · exfalso
        rw [maybeCreatePersistentDisk, if_neg hg, if_neg hc] at hok
        simp at hok

theorem C2_invalid_role_rejected_witness :
    startInstance cEx c2Provider ("i2") ("hamster") false =
      (.error ("Invalid instance role name: hamster"), []) := by
  exact (C2_invalid_role_rejected cEx c2Provider ("i2") ("hamster")
    (by decide) (by decide)).1

/-! ## Full `StartHadoopCluster` orchestration -/

/-- `HadoopCluster._StartMaster`. -/
def startMaster (c : ClusterConfig) (p : Provider) :
    (Except String InstanceInfoRec) × List Event :=
  startInstance c p (masterName c) ("master") false

/-- `HadoopCluster._StartWorkers`: `_StartInstance` per worker index, in
order; the first raised `ClusterSetUpError` aborts the iteration. -/
def startWorkersAux (c : ClusterConfig) (p : Provider) :
    List Nat → (Except String Unit) × List Event
  | [] => (.ok (), [])
  | i :: rest =>
    let r := startInstance c p (workerName c i) ("worker") false
    match r.1 with
    | .error e => (.error e, r.2)
    | .ok _ =>
      let r2 := startWorkersAux c p rest
      (r2.1, r.2 ++ r2.2)

def startWorkers (c : ClusterConfig) (p : Provider) :
    (Except String Unit) × List Event :=
  startWorkersAux c p (List.range c.numWorkers)

/-- Worker half of `_WaitForInstances`: discover each worker's external
address in index order and persist it to the worker's InstanceInfo record
(`instance_info.put()`) as soon as it is found. -/
def waitWorkersAux (c : ClusterConfig) (p : Provider) :
    List Nat → (Except String Unit) × List Event
  | [] => (.ok (), [])
  | i :: rest =>
    let wn := workerName c i
    let r := waitForExternalIp p wn
    match r.1 with
    | .error e => (.error e, r.2)
    | .ok (ip, _) =>
      let r2 := waitWorkersAux c p rest
      (r2.1, r.2 ++ [Event.regSetInstanceIp wn ip] ++ r2.2)

/-- `HadoopCluster._WaitForInstances`: master address discovery (persisted
via `SetMasterIpAddress` — modelled from the spec, `datastore.py` being
absent from src/: registry setters write through immediately), then each
worker's address discovery, then the master warm-up polling loop (each
attempt one RPC to the master's external address). -/
def waitForInstances (c : ClusterConfig) (p : Provider) :
    (Except String Unit) × List Event :=
  let rm := waitForExternalIp p (masterName c)
  match rm.1 with
  | .error e => (.error e, rm.2)
  | .ok (mip, _) =>
    let rw := waitWorkersAux c p (List.range c.numWorkers)
    match rw.1 with
    | .error e => (.error e, rm.2 ++ [Event.regSetMasterIp mip] ++ rw.2)
    | .ok () =>
      let ru := masterWarmUp p.remote
      (ru.1,
       rm.2 ++ [Event.regSetMasterIp mip] ++ rw.2 ++
         List.replicate ru.2 (Event.remoteCall mip))

/-- Modelled from the spec: `datastore.py` is not under src/.  Per §4.1
the ClusterRecord is persisted at `StartCluster` invocation (the
`NEW → PROVISIONING` transition) so that a status exists before any
provider call; error statuses are recorded as `'ERROR: <message>'`
(`datastore.ClusterStatus.ERROR`); all registry setters write through
to the durable store immediately. -/
def PROVISIONING_STATUS : String := "PROVISIONING"

def ERROR_STATUS (msg : String) : String := "ERROR: " ++ msg

/-- The `try:` body of `StartHadoopCluster`, after the initial
`cluster_info.put()`: start master, start workers, wait for the cluster. -/
def startClusterSteps (c : ClusterConfig) (p : Provider) :
    (Except String Unit) × List Event :=
  let r1 := startMaster c p
  match r1.1 with
  | .error e => (.error e, r1.2)
  | .ok _ =>
    let r2 := startWorkers c p
    match r2.1 with
    | .error e => (.error e, r1.2 ++ r2.2)
    | .ok () =>
      let r3 := waitForInstances c p
      (r3.1, r1.2 ++ r2.2 ++ r3.2)

/-- `HadoopCluster.StartHadoopCluster`: persist the ClusterRecord, then
run the provisioning/synchronization steps; any `ClusterSetUpError` is
caught at this single outer boundary and recorded on the ClusterRecord
as `'ERROR: <message>'` via `SetStatus`.  No status is written on the
success path after the initial record. -/
def startHadoopCluster (c : ClusterConfig) (p : Provider) :
    (Except String Unit) × List Event :=
  let r := startClusterSteps c p
  match r.1 with
  | .error e =>
    (.error e,
     Event.regPutCluster PROVISIONING_STATUS :: (r.2 ++ [Event.regSetStatus (ERROR_STATUS e)]))
  | .ok () => (.ok (), Event.regPutCluster PROVISIONING_STATUS :: r.2)

/-! ## Event classifiers and ordering primitive -/

/-- Events emitted during node provisioning (`_StartInstance`). -/
def isProvisioningEvent : Event → Bool
  | .getDisk _ => true
  | .createDisk _ => true
  | .createInstance _ _ => true
  | .regPutInstance _ _ _ => true
  | .regSetMasterInstance _ => true
  | _ => false

def isTeardownEvent : Event → Bool
  | .deleteInstance _ => true
  | .regDeleteCluster => true
  | _ => false

def isRemoteCallEvent : Event → Bool
  | .remoteCall _ => true
  | _ => false

def createInstanceNameOf : Event → Option String
  | .createInstance n _ => some n
  | _ => none

/-- `noQBeforeP p q tr`: scanning `tr` left to right, no event satisfying
`q` occurs before the first event satisfying `p` (in particular, if any
`q`-event occurs at all, a `p`-event strictly precedes it). -/
def noQBeforeP (p q : Event → Bool) : List Event → Bool
  | [] => true
  | e :: rest => if q e then false else if p e then true else noQBeforeP p q rest

theorem noQBeforeP_of_all_not_q (p q : Event → Bool) :
    ∀ tr, tr.all (fun e => !q e) = true → noQBeforeP p q tr = true := by
  intro tr
  induction tr with
  | nil => intro _; rfl
  | cons e rest ih =>
    intro h
    rw [List.all_cons] at h
    rcases Bool.and_eq_true_iff.1 h with ⟨h1, h2⟩
    have hq : q e = false := by
      cases hqe : q e
      · rfl
      · rw [hqe] at h1; exact absurd h1 (by decide)
    rw [noQBeforeP, hq]
    rw [if_neg (by decide : ¬ (false = true))]
    cases hpe : p e
    · rw [if_neg (by decide : ¬ (false = true))]
      exact ih h2
    · rfl

theorem noQBeforeP_append_left (p q : Event → Bool) :
    ∀ l1 l2, l1.all (fun e => !q e) = true → l1.any p = true →
      noQBeforeP p q (l1 ++ l2) = true := by
  intro l1
  induction l1 with
  | nil => intro l2 _ h; simp at h
  | cons e rest ih =>
    intro l2 hq hp
    rw [List.all_cons] at hq
    rcases Bool.and_eq_true_iff.1 hq with ⟨h1, h2⟩
    have hqe : q e = false := by
      cases hqe : q e
      · rfl
      · rw [hqe] at h1; exact absurd h1 (by decide)
    rw [List.cons_append, noQBeforeP, hqe]
    rw [if_neg (by decide : ¬ (false = true))]
    cases hpe : p e
    · rw [if_neg (by decide : ¬ (false = true))]
      rw [List.any_cons] at hp
      rw [hpe] at hp
      simp only [Bool.false_or] at hp
      exact ih l2 h2 hp
    · rfl

theorem noQBeforeP_append_skip (p q : Event → Bool) :
    ∀ l1 l2, l1.all (fun e => !q e && !p e) = true →
      noQBeforeP p q (l1 ++ l2) = noQBeforeP p q l2 := by
  intro l1
  induction l1 with
  | nil => intro l2 _; rfl
  | cons e rest ih =>
    intro l2 h
    rw [List.all_cons] at h
    rcases Bool.and_eq_true_iff.1 h with ⟨h1, h2⟩
    rcases Bool.and_eq_true_iff.1 h1 with ⟨hq, hp⟩
    have hqe : q e = false := by
      cases hqe : q e
      · rfl
      · rw [hqe] at hq; exact absurd hq (by decide)
    have hpe : p e = false := by
      cases hpe : p e
      · rfl
      · rw [hpe] at hp; exact absurd hp (by decide)
    rw [List.cons_append, noQBeforeP, hqe]
    rw [if_neg (by decide : ¬ (false = true))]
    rw [if_neg (by simp [hpe])]
    exact ih l2 h2

/-- Everything `_StartInstance` emits is a provisioning event. -/
theorem startInstance_all_provisioning (c : ClusterConfig) (p : Provider)
    (n role : String) (pd : Bool) :
    ((startInstance c p n role pd).2.all isProvisioningEvent) = true := by
  rcases hlk : instanceRoles.lookup role with _ | cmds <;>
    cases pd <;>
    cases hg : p.getDisk (n ++ "-pd") <;>
    cases hc : p.createDisk (n ++ "-pd") <;>
    cases hci : p.createInstance n <;>
    by_cases hm : (role == "master") = true <;>
    simp [startInstance, maybeCreatePersistentDisk, hg, hc, hlk, hci, hm,
      isProvisioningEvent]

/-! ## Provisioning traces -/

def masterCommands : List String := ["NameNode", "JobTracker"]

def workerCommands : List String := ["DataNode", "TaskTracker"]

/-- Metadata for a scratch-disk node (`disk_id = 'ephemeral-disk-0'`). -/
def scratchMetadata (c : ClusterConfig) (p : Provider) (n : String)
    (commands : List String) : List (String × MetaVal) :=
  fullMetadata c (p.rpckeys n) ("ephemeral-disk-0") commands

/-- Events of a successful scratch-disk worker start. -/
def okWorkerTrace (c : ClusterConfig) (p : Provider) (i : Nat) : List Event :=
  [Event.createInstance (workerName c i) (scratchMetadata c p (workerName c i) workerCommands),
   Event.regPutInstance (workerName c i) ("worker") (p.rpckeys (workerName c i))]

/-- Events of a successful scratch-disk master start (includes
`SetMasterInstance`). -/
def okMasterTrace (c : ClusterConfig) (p : Provider) : List Event :=
  [Event.createInstance (masterName c) (scratchMetadata c p (masterName c) masterCommands),
   Event.regPutInstance (masterName c) ("master") (p.rpckeys (masterName c)),
   Event.regSetMasterInstance (masterName c)]

theorem startInstance_worker_ok (c : ClusterConfig) (p : Provider) (i : Nat)
    (hci : p.createInstance (workerName c i) = true) :
    startInstance c p (workerName c i) ("worker") false =
      (.ok ⟨workerName c i, "worker", p.rpckeys (workerName c i)⟩,
       okWorkerTrace c p i) := by
  simp [startInstance, instanceRoles, List.lookup, hci, okWorkerTrace, scratchMetadata,
    fullMetadata, workerCommands]

theorem startInstance_worker_fail (c : ClusterConfig) (p : Provider) (i : Nat)
    (hci : p.createInstance (workerName c i) = false) :
    startInstance c p (workerName c i) ("worker") false =
      (.error ("Failed to start instance " ++ workerName c i),
       [Event.createInstance (workerName c i)
          (scratchMetadata c p (workerName c i) workerCommands)]) := by
  simp [startInstance, instanceRoles, List.lookup, hci, scratchMetadata,
    fullMetadata, workerCommands]

theorem startMaster_ok (c : ClusterConfig) (p : Provider)
    (hci : p.createInstance (masterName c) = true) :
    startMaster c p =
      (.ok ⟨masterName c, "master", p.rpckeys (masterName c)⟩,
       okMasterTrace c p) := by
  simp [startMaster, startInstance, instanceRoles, List.lookup, hci, okMasterTrace,
    scratchMetadata, fullMetadata, masterCommands]

theorem startMaster_fail (c : ClusterConfig) (p : Provider)
    (hci : p.createInstance (masterName c) = false) :
    startMaster c p =
      (.error ("Failed to start instance " ++ masterName c),
       [Event.createInstance (masterName c)
          (scratchMetadata c p (masterName c) masterCommands)]) := by
  simp [startMaster, startInstance, instanceRoles, List.lookup, hci,
    scratchMetadata, fullMetadata, masterCommands]

/-- Trace of a run of successful worker starts. -/
def workersTrace (c : ClusterConfig) (p : Provider) : List Nat → List Event
  | [] => []
  | i :: rest => okWorkerTrace c p i ++ workersTrace c p rest

theorem startWorkersAux_ok (c : ClusterConfig) (p : Provider) :
    ∀ is, (∀ i ∈ is, p.createInstance (workerName c i) = true) →
      startWorkersAux c p is = (.ok (), workersTrace c p is) := by
  intro is
  induction is with
  | nil => intro _; rfl
  | cons i rest ih =>
    intro hall
    have h1 := hall i (List.mem_cons_self i rest)
    rw [startWorkersAux, startInstance_worker_ok c p i h1,
      ih (fun j hj => hall j (List.mem_cons_of_mem _ hj))]
    rfl

theorem startWorkersAux_fail (c : ClusterConfig) (p : Provider) (j : Nat)
    (hfail : p.createInstance (workerName c j) = false) :
    ∀ is1 is2, (∀ i ∈ is1, p.createInstance (workerName c i) = true) →
      startWorkersAux c p (is1 ++ j :: is2) =
        (.error ("Failed to start instance " ++ workerName c j),
         workersTrace c p is1 ++
           [Event.createInstance (workerName c j)
              (scratchMetadata c p (workerName c j) workerCommands)]) := by
  intro is1
  induction is1 with
  | nil =>
    intro is2 _
    rw [List.nil_append, startWorkersAux, startInstance_worker_fail c p j hfail]
    rfl
  | cons i rest ih =>
    intro is2 hall
    have h1 := hall i (List.mem_cons_self i rest)
    rw [List.cons_append, startWorkersAux, startInstance_worker_ok c p i h1,
      ih is2 (fun x hx => hall x (List.mem_cons_of_mem _ hx))]
    simp only [workersTrace]
    rw [List.append_assoc]

/-- Splitting `range w` at an interior point `k`. -/
theorem range_split (k w : Nat) (h : k < w) :
    List.range w = List.range k ++ k :: List.range' (k + 1) (w - (k + 1)) := by
  have h2 : List.range' 0 k ++ List.range' (0 + k) (w - k) =
      List.range' 0 (w - k + k) := List.range'_append_1 0 k (w - k)
  rw [Nat.zero_add] at h2
  rw [show w - k + k = w by omega] at h2
  rw [List.range_eq_range', List.range_eq_range', ← h2]
  congr 1
  rw [show w - k = (w - (k + 1)) + 1 by omega, List.range'_succ]

/-- The node names in provisioning order: master, then workers by index. -/
def nodeNames (c : ClusterConfig) : List String :=
  masterName c :: (List.range c.numWorkers).map (workerName c)

/-! ## Event-kind facts about whole phases -/

theorem all_weaken (f g : Event → Bool) (h : ∀ e, f e = true → g e = true) :
    ∀ l : List Event, l.all f = true → l.all g = true := by
  intro l
  induction l with
  | nil => intro _; rfl
  | cons e rest ih =>
    intro hl
    rw [List.all_cons] at hl
    rcases Bool.and_eq_true_iff.1 hl with ⟨h1, h2⟩
    rw [List.all_cons, h e h1, ih h2]
    rfl

/-- Events of the `_WaitForInstances` phase. -/
def isWaitPhaseEvent : Event → Bool
  | .getInstance _ => true
  | .regSetMasterIp _ => true
  | .regSetInstanceIp _ _ => true
  | .remoteCall _ => true
  | _ => false

theorem waitForExternalIpAux_all_getInstance (p : Provider) (name : String) :
    ∀ r s, (waitForExternalIpAux p name s r).2.all
      (fun e => e == Event.getInstance name) = true := by
  intro r
  induction r with
  | zero => intro s; rfl
  | succ r ih =>
    intro s
    simp only [waitForExternalIpAux]
    cases h : ipAt p name s with
    | some ip => simp
    | none => simp [ih (s + 1)]

theorem waitForExternalIp_all_getInstance (p : Provider) (name : String) :
    (waitForExternalIp p name).2.all (fun e => e == Event.getInstance name) = true :=
  waitForExternalIpAux_all_getInstance p name _ 0

theorem waitWorkersAux_all_wait (c : ClusterConfig) (p : Provider) :
    ∀ is, (waitWorkersAux c p is).2.all isWaitPhaseEvent = true := by
  intro is
  induction is with
  | nil => rfl
  | cons i rest ih =>
    have hip : (waitForExternalIp p (workerName c i)).2.all isWaitPhaseEvent = true :=
      all_weaken _ _
        (fun e he => by
          have : e = Event.getInstance (workerName c i) := eq_of_beq he
          rw [this]; rfl)
        _ (waitForExternalIp_all_getInstance p (workerName c i))
    rcases hr : (waitForExternalIp p (workerName c i)).1 with e | v
    · simp only [waitWorkersAux, hr]
      exact hip
    · rcases v with ⟨ip, polls⟩
      simp only [waitWorkersAux, hr]
      rw [List.all_append, List.all_append]
      rw [hip, ih]
      rfl

theorem waitForInstances_all_wait (c : ClusterConfig) (p : Provider) :
    (waitForInstances c p).2.all isWaitPhaseEvent = true := by
  have hm : (waitForExternalIp p (masterName c)).2.all isWaitPhaseEvent = true :=
    all_weaken _ _
      (fun e he => by
        have : e = Event.getInstance (masterName c) := eq_of_beq he
        rw [this]; rfl)
      _ (waitForExternalIp_all_getInstance p (masterName c))
  rcases hr : (waitForExternalIp p (masterName c)).1 with e | v
  · simp only [waitForInstances, hr]
    exact hm
  · rcases v with ⟨mip, polls⟩
    rcases hw : (waitWorkersAux c p (List.range c.numWorkers)).1 with e | u
    · simp only [waitForInstances, hr, hw]
      rw [List.all_append, List.all_append, hm, waitWorkersAux_all_wait]
      rfl
    · simp only [waitForInstances, hr, hw]
      rw [List.all_append, List.all_append, List.all_append, hm, waitWorkersAux_all_wait]
      have : (List.replicate (masterWarmUp p.remote).2 (Event.remoteCall mip)).all
          isWaitPhaseEvent = true := by
        rw [List.all_eq_true]
        intro e he
        have := List.eq_of_mem_replicate he
        rw [this]
        rfl
      rw [this]
      rfl

theorem startWorkersAux_all_provisioning (c : ClusterConfig) (p : Provider) :
    ∀ is, (startWorkersAux c p is).2.all isProvisioningEvent = true := by
  intro is
  induction is with
  | nil => rfl
  | cons i rest ih =>
    have hsi := startInstance_all_provisioning c p (workerName c i) ("worker") false
    rcases hr : (startInstance c p (workerName c i) ("worker") false).1 with e | v
    · simp only [startWorkersAux, hr]
      exact hsi
    · simp only [startWorkersAux, hr]
      rw [List.all_append, hsi, ih]
      rfl

/-- Every event of `startClusterSteps` is a provisioning or wait-phase
event (in particular nothing is deleted). -/
theorem startClusterSteps_all_kinds (c : ClusterConfig) (p : Provider) :
    (startClusterSteps c p).2.all
      (fun e => isProvisioningEvent e || isWaitPhaseEvent e) = true := by
  have hm : (startMaster c p).2.all (fun e => isProvisioningEvent e || isWaitPhaseEvent e) = true :=
    all_weaken _ _ (fun e he => by rw [he]; rfl) _
      (startInstance_all_provisioning c p (masterName c) ("master") false)
  have hw : (startWorkers c p).2.all (fun e => isProvisioningEvent e || isWaitPhaseEvent e) = true :=
    all_weaken _ _ (fun e he => by rw [he]; rfl) _
      (startWorkersAux_all_provisioning c p (List.range c.numWorkers))
  have hwt : (waitForInstances c p).2.all
      (fun e => isProvisioningEvent e || isWaitPhaseEvent e) = true :=
    all_weaken _ _ (fun e he => by rw [he]; simp) _ (waitForInstances_all_wait c p)
  rcases h1 : (startMaster c p).1 with e | v
  · simp only [startClusterSteps, h1]
    exact hm
  · rcases h2 : (startWorkers c p).1 with e | u
    · simp only [startClusterSteps, h1, h2]
      rw [List.all_append, hm, hw]
      rfl
    · simp only [startClusterSteps, h1, h2]
      rw [List.all_append, List.all_append, hm, hw, hwt]
      rfl

/-- `StartHadoopCluster` performs no deletion of any kind: no
`DeleteInstance` provider call and no registry deletes. -/
theorem startHadoopCluster_no_teardown (c : ClusterConfig) (p : Provider) :
    (startHadoopCluster c p).2.all (fun e => !(isTeardownEvent e)) = true := by
  have hsteps : (startClusterSteps c p).2.all (fun e => !(isTeardownEvent e)) = true :=
    all_weaken _ _
      (fun e he => by
        rcases Bool.or_eq_true_iff.1 he with h | h <;>
          (cases e <;> simp [isProvisioningEvent, isWaitPhaseEvent, isTeardownEvent] at h ⊢)
      ) _ (startClusterSteps_all_kinds c p)
  rcases hr : (startClusterSteps c p).1 with e | u
  · simp only [startHadoopCluster, hr]
    rw [List.all_cons, List.all_append, hsteps]
    rfl
  · simp only [startHadoopCluster, hr]
    rw [List.all_cons, hsteps]
    rfl

theorem filterMap_workersTrace (c : ClusterConfig) (p : Provider) :
    ∀ is, (workersTrace c p is).filterMap createInstanceNameOf =
      is.map (workerName c) := by
  intro is
  induction is with
  | nil => rfl
  | cons i rest ih =>
    simp only [workersTrace, List.filterMap_append, ih, List.map_cons]
    rfl

theorem nodeNames_length (c : ClusterConfig) :
    (nodeNames c).length = c.numWorkers + 1 := by
  simp [nodeNames]

theorem nodeNames_getD_succ (c : ClusterConfig) (k : Nat) (hk : k < c.numWorkers) :
    (nodeNames c).getD (k + 1) "" = workerName c k := by
  have hlen : k < ((List.range c.numWorkers).map (workerName c)).length := by
    simp [hk]
  rw [nodeNames, List.getD_cons_succ, List.getD_eq_getElem _ _ hlen]
  simp

/-- C5: when the provider `CreateInstance` call for the j-th node (master
first, then workers in index order) fails while all earlier creates
succeeded, the whole `StartHadoopCluster` run fails with that node's
`ClusterSetUpError`, the ClusterRecord status is set (as the final
registry write) to `'ERROR: <message>'`, the `CreateInstance` calls made
are exactly the first j+1 node names in order (no further node is
provisioned), and no already-created node or record is deleted or rolled
back. -/
theorem C5_fatal_create_failure (c : ClusterConfig) (p : Provider) (j : Nat)
    (hj : j < (nodeNames c).length)
    (hfail : p.createInstance ((nodeNames c).getD j "") = false)
    (hok : ∀ i, i < j → p.createInstance ((nodeNames c).getD i "") = true) :
    (startHadoopCluster c p).1 =
      .error ("Failed to start instance " ++ (nodeNames c).getD j "")
    ∧ (startHadoopCluster c p).2.getLast? =
        some (Event.regSetStatus
          ("ERROR: " ++ ("Failed to start instance " ++ (nodeNames c).getD j "")))
    ∧ (startHadoopCluster c p).2.filterMap createInstanceNameOf =
        (nodeNames c).take (j + 1)
    ∧ (startHadoopCluster c p).2.all (fun e => !(isTeardownEvent e)) = true := by
  cases j with
  | zero =>
    rw [show (nodeNames c).getD 0 "" = masterName c from rfl] at hfail ⊢
    have hm : p.createInstance (masterName c) = false := hfail
    have hsm := startMaster_fail c p hm
    have hsteps : startClusterSteps c p =
        (.error ("Failed to start instance " ++ masterName c),
         [Event.createInstance (masterName c)
            (scratchMetadata c p (masterName c) masterCommands)]) := by
      simp only [startClusterSteps, hsm]
    have hrun : startHadoopCluster c p =
        (.error ("Failed to start instance " ++ masterName c),
         Event.regPutCluster PROVISIONING_STATUS ::
           ([Event.createInstance (masterName c)
               (scratchMetadata c p (masterName c) masterCommands)] ++
             [Event.regSetStatus
               (ERROR_STATUS ("Failed to start instance " ++ masterName c))])) := by
      simp only [startHadoopCluster, hsteps]
    refine ⟨?_, ?_, ?_, startHadoopCluster_no_teardown c p⟩
    · rw [hrun]
    · rw [hrun]
      rfl
    · rw [hrun]
      rfl
  | succ k =>
    have hk : k < c.numWorkers := by
      rw [nodeNames_length] at hj
      omega
    rw [nodeNames_getD_succ c k hk] at hfail ⊢
    have hmok : p.createInstance (masterName c) = true := hok 0 (Nat.succ_pos k)
    have hokW : ∀ i ∈ List.range k, p.createInstance (workerName c i) = true := by
      intro i hi
      have hik : i < k := List.mem_range.1 hi
      have := hok (i + 1) (Nat.succ_lt_succ hik)
      rwa [nodeNames_getD_succ c i (Nat.lt_trans hik hk)] at this
    have hsm := startMaster_ok c p hmok
    have hswEq : startWorkers c p =
        (.error ("Failed to start instance " ++ workerName c k),
         workersTrace c p (List.range k) ++
           [Event.createInstance (workerName c k)
              (scratchMetadata c p (workerName c k) workerCommands)]) := by
      rw [startWorkers, range_split k c.numWorkers hk]
      exact startWorkersAux_fail c p k hfail (List.range k) _ hokW
    have hsteps : startClusterSteps c p =
        (.error ("Failed to start instance " ++ workerName c k),
         okMasterTrace c p ++
           (workersTrace c p (List.range k) ++
             [Event.createInstance (workerName c k)
                (scratchMetadata c p (workerName c k) workerCommands)])) := by
      simp only [startClusterSteps, hsm, hswEq]
    have hrun : startHadoopCluster c p =
        (.error ("Failed to start instance " ++ workerName c k),
         Event.regPutCluster PROVISIONING_STATUS ::
           ((okMasterTrace c p ++
             (workersTrace c p (List.range k) ++
               [Event.createInstance (workerName c k)
                  (scratchMetadata c p (workerName c k) workerCommands)])) ++
             [Event.regSetStatus
               (ERROR_STATUS ("Failed to start instance " ++ workerName c k))])) := by
      simp only [startHadoopCluster, hsteps]
    refine ⟨?_, ?_, ?_, startHadoopCluster_no_teardown c p⟩
    · rw [hrun]
    · rw [hrun]
      rw [show ∀ (x : Event) (l : List Event) (a : Event), (x :: (l ++ [a])).getLast? =
            some a from fun x l a => by rw [← List.cons_append, List.getLast?_concat]]
      rfl
    · rw [hrun]
      simp only [List.filterMap_cons, List.filterMap_append, filterMap_workersTrace]
      have hfmm : (okMasterTrace c p).filterMap createInstanceNameOf = [masterName c] := rfl
      rw [hfmm]
      have htake : (nodeNames c).take (k + 1 + 1) =
          masterName c :: ((List.range k).map (workerName c) ++ [workerName c k]) := by
        rw [nodeNames, List.take_succ_cons, ← List.map_take, List.take_range,
          show min (k + 1) c.numWorkers = k + 1 by omega, List.range_succ, List.map_append]
        rfl
      rw [htake]
      simp [createInstanceNameOf]

/-- Provider for the C5 witness: every create succeeds except worker 001. -/
def c5Provider : Provider where
  getDisk := fun _ => false
  createDisk := fun _ => true
  createInstance := fun n => n != ("managed-hadoop-worker-001")
  getInstance := fun _ _ => none
  remote := fun _ => RemoteOutcome.connFailure
  rpckeys := fun _ => "k"

def c5Cfg : ClusterConfig :=
  ⟨"managed", "proj", "zone-a", "n1", "img", "net", 2, "", "bkt"⟩

theorem C5_fatal_create_failure_witness :
    (startHadoopCluster c5Cfg c5Provider).1 =
      .error ("Failed to start instance managed-hadoop-worker-001")
    ∧ (startHadoopCluster c5Cfg c5Provider).2.filterMap createInstanceNameOf =
        [("managed-hadoop-master"), ("managed-hadoop-worker-000"),
         ("managed-hadoop-worker-001")]
    ∧ (startHadoopCluster c5Cfg c5Provider).2.all (fun e => !(isTeardownEvent e)) = true := by
  have h := C5_fatal_create_failure c5Cfg c5Provider 2
    (by decide)
    (by decide)
    (by intro i hi; interval_cases i <;> decide)
  rcases h with ⟨h1, _, h3, h4⟩
  refine ⟨?_, ?_, h4⟩
  · rw [h1]
    rfl
  · rw [h3]
    rfl

/-! ## Name distinctness -/

theorem workerName_inj (c : ClusterConfig) (i j : Nat)
    (h : workerName c i = workerName c j) : i = j := by
  have hd := congrArg String.data h
  simp only [workerName, pad3, String.data_append] at hd
  have h2 := List.append_cancel_left hd
  have h3 := congrArg decVal h2
  rwa [decVal_pad3List, decVal_pad3List] at h3

theorem workerName_ne (c : ClusterConfig) (i j : Nat) (hij : i ≠ j) :
    workerName c i ≠ workerName c j :=
  fun h => hij (workerName_inj c i j h)

theorem masterName_ne_workerName (c : ClusterConfig) (i : Nat) :
    masterName c ≠ workerName c i := by
  intro h
  have hd := congrArg (fun s => s.data.length) h
  simp only [masterName, workerName, pad3, String.data_append,
    List.length_append] at hd
  have l1 : ("-hadoop-master").data.length = 14 := rfl
  have l2 : ("-hadoop-worker-").data.length = 15 := rfl
  have h3 : 3 ≤ (pad3List i).length := by
    rw [pad3List, List.length_append, List.length_replicate]
    omega
  rw [l1, l2] at hd
  omega

/-! ## C1: persistence along the lifecycle -/

def writesStatus (s : String) : Event → Bool
  | .regPutCluster st => st == s
  | .regSetStatus st => st == s
  | _ => false

/-- Configuration and provider for a fully successful one-worker run:
addresses appear on the first poll and the first warm-up RPC returns a
status-200 `success` body. -/
def c1Cfg : ClusterConfig :=
  ⟨"managed", "proj", "zone-a", "n1", "img", "net", 1, "", "bkt"⟩

def c1Provider : Provider where
  getDisk := fun _ => false
  createDisk := fun _ => true
  createInstance := fun _ => true
  getInstance := fun _ _ => some (descWithIp ("10.1.2.3"))
  remote := fun _ => RemoteOutcome.response 200 ("success")
  rpckeys := fun _ => "k"

/-- C1 counterexample: a successful `StartHadoopCluster` run performs
warm-up polling (a later step than the `PROVISIONING → WARMING_UP`
transition) and finishes in the READY state, yet no `WARMING_UP` and no
`READY` status value is ever persisted to the ClusterRecord — the only
status ever written is the initial one. -/
theorem C1_persistence_counterexample :
    (startHadoopCluster c1Cfg c1Provider).1 = .ok ()
    ∧ (startHadoopCluster c1Cfg c1Provider).2.any isRemoteCallEvent = true
    ∧ (startHadoopCluster c1Cfg c1Provider).2.any (writesStatus ("WARMING_UP")) = false
    ∧ (startHadoopCluster c1Cfg c1Provider).2.any (writesStatus ("READY")) = false := by
  exact ⟨rfl, rfl, rfl, rfl⟩

def isRegSetMasterIpEvent : Event → Bool
  | .regSetMasterIp _ => true
  | _ => false

/-- An IP-discovery poll of any instance other than the master. -/
def isNonMasterPoll (c : ClusterConfig) : Event → Bool
  | .getInstance n => n != masterName c
  | _ => false

def isSetInstanceIpOf (n : String) : Event → Bool
  | .regSetInstanceIp m _ => m == n
  | _ => false

def isPollOf (n : String) : Event → Bool
  | .getInstance m => m == n
  | _ => false

/-- Events emitted by the worker-address half of `_WaitForInstances`. -/
def isWorkerWaitEvent : Event → Bool
  | .getInstance _ => true
  | .regSetInstanceIp _ _ => true
  | _ => false

theorem noQBeforeP_append_nil_q (p q : Event → Bool) :
    ∀ l1 l2, noQBeforeP p q l1 = true → l2.all (fun e => !q e) = true →
      noQBeforeP p q (l1 ++ l2) = true := by
  intro l1
  induction l1 with
  | nil => intro l2 _ h2; exact noQBeforeP_of_all_not_q p q l2 h2
  | cons e rest ih =>
    intro l2 h1 h2
    rw [noQBeforeP] at h1
    rw [List.cons_append, noQBeforeP]
    cases hqe : q e
    · rw [hqe] at h1
      rw [if_neg (by decide : ¬ (false = true))] at h1 ⊢
      cases hpe : p e
      · rw [hpe] at h1
        rw [if_neg (by decide : ¬ (false = true))] at h1 ⊢
        exact ih l2 h1 h2
      · rfl
    · rw [hqe] at h1
      simp at h1

theorem all_beq_imp (a : Event) (g : Event → Bool) (h : g a = false) :
    ∀ l : List Event, l.all (fun e => e == a) = true →
      l.all (fun e => !g e) = true := by
  intro l hl
  refine all_weaken _ _ ?_ l hl
  intro e he
  have hea : e = a := eq_of_beq he
  rw [hea, h]
  rfl

theorem all_not_and (f g : Event → Bool) (l : List Event)
    (hf : l.all (fun e => !f e) = true) (hg : l.all (fun e => !g e) = true) :
    l.all (fun e => !f e && !g e) = true := by
  rw [List.all_eq_true] at hf hg ⊢
  intro e he
  have h1 := hf e he
  have h2 := hg e he
  simp only at h1 h2 ⊢
  rw [h1, h2]
  rfl

theorem waitWorkersAux_all_workerWait (c : ClusterConfig) (p : Provider) :
    ∀ is, (waitWorkersAux c p is).2.all isWorkerWaitEvent = true := by
  intro is
  induction is with
  | nil => rfl
  | cons i rest ih =>
    have hip : (waitForExternalIp p (workerName c i)).2.all isWorkerWaitEvent = true :=
      all_weaken _ _
        (fun e he => by
          have : e = Event.getInstance (workerName c i) := eq_of_beq he
          rw [this]; rfl)
        _ (waitForExternalIp_all_getInstance p (workerName c i))
    rcases hr : (waitForExternalIp p (workerName c i)).1 with e | v
    · simp only [waitWorkersAux, hr]
      exact hip
    · rcases v with ⟨ip, polls⟩
      simp only [waitWorkersAux, hr]
      rw [List.all_append, List.all_append, hip, ih]
      rfl

/-- In a fully successful worker wait, each worker's discovered address
is written to its InstanceRecord. -/
theorem waitWorkersAux_writes_ip (c : ClusterConfig) (p : Provider) :
    ∀ is, (waitWorkersAux c p is).1 = .ok () →
      ∀ i ∈ is, (waitWorkersAux c p is).2.any (isSetInstanceIpOf (workerName c i)) = true := by
  intro is
  induction is with
  | nil => intro _ i hi; simp at hi
  | cons j rest ih =>
    intro hok i hi
    rcases hr : (waitForExternalIp p (workerName c j)).1 with e | v
    · rw [waitWorkersAux, hr] at hok
      simp at hok
    · rcases v with ⟨ip, polls⟩
      have hrest : (waitWorkersAux c p rest).1 = .ok () := by
        rw [waitWorkersAux, hr] at hok
        exact hok
      simp only [waitWorkersAux, hr]
      rcases List.mem_cons.1 hi with hij | hmem
      · subst hij
        rw [List.any_append, List.any_append]
        have : (Event.regSetInstanceIp (workerName c i) ip ::
            ([] : List Event)).any (isSetInstanceIpOf (workerName c i)) = true := by
          simp [isSetInstanceIpOf]
        rw [List.any_cons] at this
        simp only [List.any_cons, List.any_nil]
        have hself : isSetInstanceIpOf (workerName c i)
            (Event.regSetInstanceIp (workerName c i) ip) = true := by
          simp [isSetInstanceIpOf]
        rw [hself]
        simp
      · rw [List.any_append, List.any_append, ih hrest i hmem]
        simp

/-- Worker-address writes happen in index order: scanning the worker-wait
trace, no poll of the successor worker occurs before the target worker's
address write. -/
theorem waitWorkersAux_ip_order (c : ClusterConfig) (p : Provider) (t : Nat)
    (hne : workerName c t ≠ workerName c (t + 1)) :
    ∀ is1 is2, (∀ j ∈ is1, workerName c j ≠ workerName c (t + 1)) →
      noQBeforeP (isSetInstanceIpOf (workerName c t)) (isPollOf (workerName c (t + 1)))
        (waitWorkersAux c p (is1 ++ t :: is2)).2 = true := by
  have hqfree : ∀ m : String, m ≠ workerName c (t + 1) →
      (waitForExternalIp p m).2.all
        (fun e => !(isPollOf (workerName c (t + 1)) e)) = true := by
    intro m hm
    exact all_beq_imp (Event.getInstance m) _
      (by simp [isPollOf, beq_eq_false_iff_ne.2 hm])
      _ (waitForExternalIp_all_getInstance p m)
  have hpfree : ∀ m : String,
      (waitForExternalIp p m).2.all
        (fun e => !(isSetInstanceIpOf (workerName c t) e)) = true := by
    intro m
    exact all_beq_imp (Event.getInstance m) _ (by simp [isSetInstanceIpOf])
      _ (waitForExternalIp_all_getInstance p m)
  intro is1
  induction is1 with
  | nil =>
    intro is2 _
    rcases hr : (waitForExternalIp p (workerName c t)).1 with e | v
    · simp only [List.nil_append, waitWorkersAux, hr]
      exact noQBeforeP_of_all_not_q _ _ _ (hqfree (workerName c t) hne)
    · rcases v with ⟨ip, polls⟩
      simp only [List.nil_append, waitWorkersAux, hr]
      apply noQBeforeP_append_left
      · rw [List.all_append, hqfree (workerName c t) hne]
        simp [isPollOf]
      · rw [List.any_append]
        have hp1 : (([Event.regSetInstanceIp (workerName c t) ip] : List Event)).any
            (isSetInstanceIpOf (workerName c t)) = true := by
          simp [isSetInstanceIpOf]
        rw [hp1]
        simp
  | cons j rest1 ih =>
    intro is2 hall
    have hj := hall j (List.mem_cons_self j rest1)
    rcases hr : (waitForExternalIp p (workerName c j)).1 with e | v
    · simp only [List.cons_append, waitWorkersAux, hr]
      exact noQBeforeP_of_all_not_q _ _ _ (hqfree (workerName c j) hj)
    · rcases v with ⟨ip, polls⟩
      simp only [List.cons_append, waitWorkersAux, hr]
      cases hpj : (workerName c j == workerName c t)
      · have hskip : ((waitForExternalIp p (workerName c j)).2 ++
            [Event.regSetInstanceIp (workerName c j) ip]).all
            (fun e => !(isPollOf (workerName c (t + 1)) e) &&
              !(isSetInstanceIpOf (workerName c t) e)) = true := by
          apply all_not_and
          · rw [List.all_append, hqfree (workerName c j) hj]
            simp [isPollOf]
          · rw [List.all_append, hpfree (workerName c j)]
            simp [isSetInstanceIpOf, hpj]
        rw [noQBeforeP_append_skip _ _ _ _ hskip]
        exact ih is2 (fun x hx => hall x (List.mem_cons_of_mem _ hx))
      · apply noQBeforeP_append_left
        · rw [List.all_append, hqfree (workerName c j) hj]
          simp [isPollOf]
        · rw [List.any_append]
          have hp1 : (([Event.regSetInstanceIp (workerName c j) ip] : List Event)).any
              (isSetInstanceIpOf (workerName c t)) = true := by
            simp [isSetInstanceIpOf, hpj]
          rw [hp1]
          simp

theorem waitForInstances_master_ip_first (c : ClusterConfig) (p : Provider) :
    noQBeforeP isRegSetMasterIpEvent (isNonMasterPoll c)
      (waitForInstances c p).2 = true := by
  have hmafree : (waitForExternalIp p (masterName c)).2.all
      (fun e => !(isNonMasterPoll c e)) = true :=
    all_beq_imp (Event.getInstance (masterName c)) _
      (by simp [isNonMasterPoll]) _
      (waitForExternalIp_all_getInstance p (masterName c))
  rcases hr : (waitForExternalIp p (masterName c)).1 with e | v
  · simp only [waitForInstances, hr]
    exact noQBeforeP_of_all_not_q _ _ _ hmafree
  · rcases v with ⟨mip, polls⟩
    have hskip : (waitForExternalIp p (masterName c)).2.all
        (fun e => !(isNonMasterPoll c e) && !(isRegSetMasterIpEvent e)) = true := by
      apply all_not_and
      · exact hmafree
      · exact all_beq_imp (Event.getInstance (masterName c)) _
          (by simp [isRegSetMasterIpEvent]) _
          (waitForExternalIp_all_getInstance p (masterName c))
    rcases hw : (waitWorkersAux c p (List.range c.numWorkers)).1 with e | u
    · simp only [waitForInstances, hr, hw]
      rw [List.append_assoc, noQBeforeP_append_skip _ _ _ _ hskip]
      rw [List.singleton_append, noQBeforeP]
      rw [if_neg (by simp [isNonMasterPoll] : ¬ (isNonMasterPoll c (Event.regSetMasterIp mip) = true))]
      rw [if_pos (by simp [isRegSetMasterIpEvent] : isRegSetMasterIpEvent (Event.regSetMasterIp mip) = true)]
    · simp only [waitForInstances, hr, hw]
      rw [List.append_assoc, List.append_assoc, noQBeforeP_append_skip _ _ _ _ hskip]
      rw [List.singleton_append, noQBeforeP]
      rw [if_neg (by simp [isNonMasterPoll] : ¬ (isNonMasterPoll c (Event.regSetMasterIp mip) = true))]
      rw [if_pos (by simp [isRegSetMasterIpEvent] : isRegSetMasterIpEvent (Event.regSetMasterIp mip) = true)]

theorem waitForInstances_worker_ip_order (c : ClusterConfig) (p : Provider)
    (i : Nat) (hi : i + 1 < c.numWorkers) :
    noQBeforeP (isSetInstanceIpOf (workerName c i)) (isPollOf (workerName c (i + 1)))
      (waitForInstances c p).2 = true := by
  have hmq : (waitForExternalIp p (masterName c)).2.all
      (fun e => !(isPollOf (workerName c (i + 1)) e)) = true :=
    all_beq_imp (Event.getInstance (masterName c)) _
      (by simp [isPollOf, beq_eq_false_iff_ne.2 (masterName_ne_workerName c (i + 1))]) _
      (waitForExternalIp_all_getInstance p (masterName c))
  have hskip : (waitForExternalIp p (masterName c)).2.all
      (fun e => !(isPollOf (workerName c (i + 1)) e) &&
        !(isSetInstanceIpOf (workerName c i) e)) = true := by
    apply all_not_and
    · exact hmq
    · exact all_beq_imp (Event.getInstance (masterName c)) _
        (by simp [isSetInstanceIpOf]) _
        (waitForExternalIp_all_getInstance p (masterName c))
  have hiw : i < c.numWorkers := by omega
  have hsplit := range_split i c.numWorkers hiw
  have hworder : noQBeforeP (isSetInstanceIpOf (workerName c i))
      (isPollOf (workerName c (i + 1)))
      (waitWorkersAux c p (List.range c.numWorkers)).2 = true := by
    rw [hsplit]
    exact waitWorkersAux_ip_order c p i (workerName_ne c i (i + 1) (by omega))
      (List.range i) _
      (fun j hj => workerName_ne c j (i + 1)
        (by have := List.mem_range.1 hj; omega))
  rcases hr : (waitForExternalIp p (masterName c)).1 with e | v
  · simp only [waitForInstances, hr]
    exact noQBeforeP_of_all_not_q _ _ _ hmq
  · rcases v with ⟨mip, polls⟩
    rcases hw : (waitWorkersAux c p (List.range c.numWorkers)).1 with e | u
    · simp only [waitForInstances, hr, hw]
      rw [List.append_assoc, noQBeforeP_append_skip _ _ _ _ hskip,
        List.singleton_append, noQBeforeP]
      rw [if_neg (by simp [isPollOf] :
        ¬ (isPollOf (workerName c (i + 1)) (Event.regSetMasterIp mip) = true))]
      rw [if_neg (by simp [isSetInstanceIpOf] :
        ¬ (isSetInstanceIpOf (workerName c i) (Event.regSetMasterIp mip) = true))]
      exact hworder
    · simp only [waitForInstances, hr, hw]
      rw [List.append_assoc, List.append_assoc,
        noQBeforeP_append_skip _ _ _ _ hskip, List.singleton_append, noQBeforeP]
      rw [if_neg (by simp [isPollOf] :
        ¬ (isPollOf (workerName c (i + 1)) (Event.regSetMasterIp mip) = true))]
      rw [if_neg (by simp [isSetInstanceIpOf] :
        ¬ (isSetInstanceIpOf (workerName c i) (Event.regSetMasterIp mip) = true))]
      apply noQBeforeP_append_nil_q
      · exact hworder
      · rw [List.all_eq_true]
        intro e he
        have := List.eq_of_mem_replicate he
        rw [this]
        rfl

theorem waitForInstances_ip_before_remote (c : ClusterConfig) (p : Provider)
    (i : Nat) (hi : i < c.numWorkers) :
    noQBeforeP (isSetInstanceIpOf (workerName c i)) isRemoteCallEvent
      (waitForInstances c p).2 = true := by
  have hmq : (waitForExternalIp p (masterName c)).2.all
      (fun e => !(isRemoteCallEvent e)) = true :=
    all_beq_imp (Event.getInstance (masterName c)) _
      (by simp [isRemoteCallEvent]) _
      (waitForExternalIp_all_getInstance p (masterName c))
  have hwq : (waitWorkersAux c p (List.range c.numWorkers)).2.all
      (fun e => !(isRemoteCallEvent e)) = true :=
    all_weaken _ _
      (fun e he => by cases e <;> simp_all [isWorkerWaitEvent, isRemoteCallEvent]) _
      (waitWorkersAux_all_workerWait c p (List.range c.numWorkers))
  rcases hr : (waitForExternalIp p (masterName c)).1 with e | v
  · simp only [waitForInstances, hr]
    exact noQBeforeP_of_all_not_q _ _ _ hmq
  · rcases v with ⟨mip, polls⟩
    rcases hw : (waitWorkersAux c p (List.range c.numWorkers)).1 with e | u
    · simp only [waitForInstances, hr, hw]
      apply noQBeforeP_of_all_not_q
      rw [List.all_append, List.all_append]
      rw [hmq, hwq]
      simp [isRemoteCallEvent]
    · simp only [waitForInstances, hr, hw]
      apply noQBeforeP_append_left
      · rw [List.all_append, List.all_append]
        rw [hmq, hwq]
        simp [isRemoteCallEvent]
      · rw [List.any_append, List.any_append]
        have hany := waitWorkersAux_writes_ip c p (List.range c.numWorkers) hw i
          (List.mem_range.2 hi)
        rw [hany]
        simp

theorem startHadoopCluster_order_lift (c : ClusterConfig) (p : Provider)
    (pf qf : Event → Bool)
    (hprovp : ∀ e, isProvisioningEvent e = true → pf e = false)
    (hprovq : ∀ e, isProvisioningEvent e = true → qf e = false)
    (hputq : qf (Event.regPutCluster PROVISIONING_STATUS) = false)
    (hputp : pf (Event.regPutCluster PROVISIONING_STATUS) = false)
    (hstq : ∀ s, qf (Event.regSetStatus s) = false)
    (hwait : noQBeforeP pf qf (waitForInstances c p).2 = true) :
    noQBeforeP pf qf (startHadoopCluster c p).2 = true := by
  have hmq : (startMaster c p).2.all (fun e => !qf e) = true :=
    all_weaken _ _ (fun e he => by rw [hprovq e he]; rfl) _
      (startInstance_all_provisioning c p (masterName c) ("master") false)
  have hmp : (startMaster c p).2.all (fun e => !pf e) = true :=
    all_weaken _ _ (fun e he => by rw [hprovp e he]; rfl) _
      (startInstance_all_provisioning c p (masterName c) ("master") false)
  have hmskip := all_not_and _ _ _ hmq hmp
  have hwq : (startWorkers c p).2.all (fun e => !qf e) = true :=
    all_weaken _ _ (fun e he => by rw [hprovq e he]; rfl) _
      (startWorkersAux_all_provisioning c p (List.range c.numWorkers))
  have hwp : (startWorkers c p).2.all (fun e => !pf e) = true :=
    all_weaken _ _ (fun e he => by rw [hprovp e he]; rfl) _
      (startWorkersAux_all_provisioning c p (List.range c.numWorkers))
  have hwskip := all_not_and _ _ _ hwq hwp
  have hput1 : (([Event.regPutCluster PROVISIONING_STATUS] : List Event)).all
      (fun e => !qf e && !pf e) = true := by
    simp [hputq, hputp]
  rcases h1 : (startMaster c p).1 with e | v
  · have hsteps : startClusterSteps c p = (.error e, (startMaster c p).2) := by
      simp only [startClusterSteps, h1]
    simp only [startHadoopCluster, hsteps]
    apply noQBeforeP_of_all_not_q
    rw [List.all_cons, List.all_append, hmq]
    simp [hputq, hstq]
  · rcases h2 : (startWorkers c p).1 with e | u
    · have hsteps : startClusterSteps c p =
          (.error e, (startMaster c p).2 ++ (startWorkers c p).2) := by
        simp only [startClusterSteps, h1, h2]
      simp only [startHadoopCluster, hsteps]
      apply noQBeforeP_of_all_not_q
      rw [List.all_cons, List.all_append, List.all_append, hmq, hwq]
      simp [hputq, hstq]
    · have hsteps : startClusterSteps c p =
          ((waitForInstances c p).1,
           (startMaster c p).2 ++ (startWorkers c p).2 ++ (waitForInstances c p).2) := by
        simp only [startClusterSteps, h1, h2]
      rcases h3 : (waitForInstances c p).1 with e | w
      · simp only [startHadoopCluster, hsteps, h3]
        rw [← List.singleton_append]
        simp only [List.append_assoc]
        rw [noQBeforeP_append_skip _ _ _ _ hput1,
          noQBeforeP_append_skip _ _ _ _ hmskip,
          noQBeforeP_append_skip _ _ _ _ hwskip]
        apply noQBeforeP_append_nil_q
        · exact hwait
        · simp [hstq]
      · simp only [startHadoopCluster, hsteps, h3]
        rw [← List.singleton_append]
        simp only [List.append_assoc]
        rw [noQBeforeP_append_skip _ _ _ _ hput1,
          noQBeforeP_append_skip _ _ _ _ hmskip,
          noQBeforeP_append_skip _ _ _ _ hwskip]
        exact hwait

/-- C1 (amended): the ClusterRecord with its initial status is the very
first persisted/observable action of `StartHadoopCluster` (so a status
exists before any provider call); the master's discovered address is
persisted before any other instance is polled; each worker's discovered
address is persisted before the next worker is polled and before any
warm-up RPC; and every failure transition is persisted as the final
`'ERROR: <message>'` status write.  The `WARMING_UP` and `READY`
transitions, however, are never persisted (see the counterexample). -/
theorem C1_persistence_ordering (c : ClusterConfig) (p : Provider) :
    (startHadoopCluster c p).2.head? =
      some (Event.regPutCluster PROVISIONING_STATUS)
    ∧ noQBeforeP isRegSetMasterIpEvent (isNonMasterPoll c)
        (startHadoopCluster c p).2 = true
    ∧ (∀ i, i + 1 < c.numWorkers →
        noQBeforeP (isSetInstanceIpOf (workerName c i)) (isPollOf (workerName c (i + 1)))
          (startHadoopCluster c p).2 = true)
    ∧ (∀ i, i < c.numWorkers →
        noQBeforeP (isSetInstanceIpOf (workerName c i)) isRemoteCallEvent
          (startHadoopCluster c p).2 = true)
    ∧ (∀ msg, (startHadoopCluster c p).1 = .error msg →
        (startHadoopCluster c p).2.getLast? =
          some (Event.regSetStatus (ERROR_STATUS msg))) := by
  refine ⟨?_, ?_, ?_, ?_, ?_⟩
  · rcases hr : (startClusterSteps c p).1 with e | u <;>
      simp only [startHadoopCluster, hr] <;> rfl
  · exact startHadoopCluster_order_lift c p _ _
      (fun e he => by cases e <;> simp_all [isProvisioningEvent, isRegSetMasterIpEvent])
      (fun e he => by cases e <;> simp_all [isProvisioningEvent, isNonMasterPoll])
      rfl rfl (fun s => rfl)
      (waitForInstances_master_ip_first c p)
  · intro i hi
    exact startHadoopCluster_order_lift c p _ _
      (fun e he => by cases e <;> simp_all [isProvisioningEvent, isSetInstanceIpOf])
      (fun e he => by cases e <;> simp_all [isProvisioningEvent, isPollOf])
      rfl rfl (fun s => rfl)
      (waitForInstances_worker_ip_order c p i hi)
  · intro i hi
    exact startHadoopCluster_order_lift c p _ _
      (fun e he => by cases e <;> simp_all [isProvisioningEvent, isSetInstanceIpOf])
      (fun e he => by cases e <;> simp_all [isProvisioningEvent, isRemoteCallEvent])
      rfl rfl (fun s => rfl)
      (waitForInstances_ip_before_remote c p i hi)
  · intro msg hmsg
    rcases hr : (startClusterSteps c p).1 with e | u
    · have : (startHadoopCluster c p).1 = .error e := by
        simp only [startHadoopCluster, hr]
      rw [hmsg] at this
      have hme : msg = e := by
        cases this
        rfl
      subst hme
      simp only [startHadoopCluster, hr]
      rw [← List.cons_append, List.getLast?_concat]
    · have : (startHadoopCluster c p).1 = .ok () := by
        simp only [startHadoopCluster, hr]
      rw [hmsg] at this
      cases this

/-- Configuration with two workers for the C1 witness. -/
def c1wCfg : ClusterConfig :=
  ⟨"managed", "proj", "zone-a", "n1", "img", "net", 2, "", "bkt"⟩

theorem C1_persistence_ordering_witness :
    (startHadoopCluster c1wCfg c1Provider).2.head? =
      some (Event.regPutCluster PROVISIONING_STATUS)
    ∧ noQBeforeP (isSetInstanceIpOf (workerName c1wCfg 0)) (isPollOf (workerName c1wCfg 1))
        (startHadoopCluster c1wCfg c1Provider).2 = true
    ∧ noQBeforeP (isSetInstanceIpOf (workerName c1wCfg 1)) isRemoteCallEvent
        (startHadoopCluster c1wCfg c1Provider).2 = true
    ∧ (startHadoopCluster c1wCfg c5Provider).2.getLast? =
        some (Event.regSetStatus
          (ERROR_STATUS ("Failed to start instance managed-hadoop-worker-001"))) := by
  refine ⟨(C1_persistence_ordering c1wCfg c1Provider).1,
          (C1_persistence_ordering c1wCfg c1Provider).2.2.1 0 (by decide),
          (C1_persistence_ordering c1wCfg c1Provider).2.2.2.1 1 (by decide), ?_⟩
  exact (C1_persistence_ordering c1wCfg c5Provider).2.2.2.2
    ("Failed to start instance managed-hadoop-worker-001") rfl

/-! ## `TeardownCluster` -/

def CLUSTER_SHUTDOWN_MAX_CHECK_TIMES : Nat := 60

/-- Provider behaviour during teardown: `list k` is the result of the
k-th `ListInstances` call (names of matching instances); `alive j a n`
tells whether `GetInstance(n)` during confirmation attempt `a` of outer
iteration `j` still returns a descriptor. -/
structure TeardownProvider where
  list : Nat → List String
  alive : Nat → Nat → String → Bool

/-- Modelled from the spec: `datastore.ClusterStatus.TEARING_DOWN`
(`datastore.py` is absent from src/). -/
def TEARING_DOWN_STATUS : String := "TEARING_DOWN"

/-- The discovery filter `'name eq "%s|%s"' % (master_name, worker_name_pattern)`. -/
def teardownFilter (c : ClusterConfig) : String :=
  "name eq \"" ++ masterName c ++ "|" ++ workerNamePattern c ++ "\""

/-- Inner confirmation loop of `TeardownCluster`
(`for _ in xrange(CLUSTER_SHUTDOWN_MAX_CHECK_TIMES)`): each pass polls
`GetInstance` for every still-listed name, keeps the ones still alive,
and breaks early when none remain. -/
def confirmLoop (tp : TeardownProvider) (j : Nat) :
    List String → Nat → Nat → List Event
  | _, _, 0 => []
  | names, a, r + 1 =>
    let evs := names.map Event.getInstance
    let still := names.filter (fun n => tp.alive j a n)
    if still.isEmpty then evs
    else evs ++ confirmLoop tp j still (a + 1) r

/-- Outer `while True:` discovery/delete/confirm loop of
`TeardownCluster`, fuel-bounded for the embedding (the source itself is
unbounded): `none` means the fuel ran out with the loop still going,
`some trace` that the loop broke out via an empty listing. -/
def teardownLoop (c : ClusterConfig) (tp : TeardownProvider) :
    Nat → Nat → Option (List Event)
  | _, 0 => none
  | j, fuel + 1 =>
    let names := tp.list j
    if names.isEmpty then some [Event.listInstances (teardownFilter c)]
    else
      match teardownLoop c tp (j + 1) fuel with
      | none => none
      | some rest =>
        some (Event.listInstances (teardownFilter c) ::
          (names.map Event.deleteInstance ++
            confirmLoop tp j names 0 CLUSTER_SHUTDOWN_MAX_CHECK_TIMES ++ rest))

/-- `HadoopCluster.TeardownCluster`: persist `TEARING_DOWN`, run the
discovery/delete/confirm loop, then delete the ClusterRecord. -/
def teardownCluster (c : ClusterConfig) (tp : TeardownProvider) (fuel : Nat) :
    Option (List Event) :=
  (teardownLoop c tp 0 fuel).map
    (fun tr => Event.regSetStatus TEARING_DOWN_STATUS ::
      (tr ++ [Event.regDeleteCluster]))

/-- Termination of teardown, as a proposition over the embedding's fuel. -/
def TeardownTerminates (c : ClusterConfig) (tp : TeardownProvider) : Prop :=
  ∃ fuel, teardownCluster c tp fuel ≠ none

/-- A provider that always lists one matching instance that never goes
away. -/
def tpStuck : TeardownProvider where
  list := fun _ => [("ghost")]
  alive := fun _ _ _ => false

/-- C6 counterexample: against a provider that keeps listing a matching
instance, `TeardownCluster` loops without bound — it neither terminates
nor surfaces any `TeardownIncomplete` condition (no such condition exists
in the code). -/
theorem C6_teardown_counterexample : ¬ TeardownTerminates cEx tpStuck := by
  intro h
  rcases h with ⟨fuel, hf⟩
  apply hf
  have hall : ∀ f j, teardownLoop cEx tpStuck j f = none := by
    intro f
    induction f with
    | zero => intro j; rfl
    | succ f ih =>
      intro j
      simp only [teardownLoop]
      rw [show tpStuck.list j = [("ghost")] from rfl]
      rw [if_neg (by decide : ¬ ((([("ghost")] : List String)).isEmpty = true))]
      rw [ih (j + 1)]
  rw [teardownCluster, hall fuel 0]
  rfl

/-- C6 (amended): the teardown loop terminates exactly when some outer
iteration's `ListInstances` call reports no matching instance: with fuel
for `f` outer iterations, the run completes iff one of the first `f`
listings is empty.  There is no overall retry/time budget and no
`TeardownIncomplete` condition in the code, so a provider that always
lists a matching instance makes teardown loop without bound. -/
theorem C6_teardown_termination (c : ClusterConfig) (tp : TeardownProvider)
    (fuel : Nat) :
    (teardownCluster c tp fuel).isSome = true ↔
      ∃ j, j < fuel ∧ tp.list j = [] := by
  have haux : ∀ f s, (teardownLoop c tp s f).isSome = true ↔
      ∃ j, j < f ∧ tp.list (s + j) = [] := by
    intro f
    induction f with
    | zero =>
      intro s
      simp [teardownLoop]
    | succ f ih =>
      intro s
      simp only [teardownLoop]
      cases hne : (tp.list s).isEmpty
      · rw [if_neg (by simp [hne])]
        have hsne : tp.list s ≠ [] := by
          intro h0
          rw [h0] at hne
          exact absurd hne (by decide)
        cases hm : teardownLoop c tp (s + 1) f
        · simp only [Option.isSome_none]
          constructor
          · intro h0; exact absurd h0 (by decide)
          · intro h0
            rcases h0 with ⟨j, hj, hl⟩
            cases j with
            | zero => exact absurd hl hsne
            | succ j0 =>
              have : (teardownLoop c tp (s + 1) f).isSome = true := by
                rw [ih (s + 1)]
                exact ⟨j0, by omega, by rwa [show s + 1 + j0 = s + (j0 + 1) by omega]⟩
              rw [hm] at this
              exact absurd this (by decide)
        · simp only [Option.isSome_some]
          constructor
          · intro _
            have : (teardownLoop c tp (s + 1) f).isSome = true := by
              rw [hm]; rfl
            rw [ih (s + 1)] at this
            rcases this with ⟨j, hj, hl⟩
            exact ⟨j + 1, by omega, by rwa [show s + (j + 1) = s + 1 + j by omega]⟩
          · intro _; trivial
      · rw [if_pos (by simp [hne])]
        simp only [Option.isSome_some]
        constructor
        · intro _
          exact ⟨0, Nat.succ_pos f, by
            rw [Nat.add_zero]
            exact List.isEmpty_iff.1 hne⟩
        · intro _; trivial
  have h := haux fuel 0
  simp only [Nat.zero_add] at h
  rw [teardownCluster]
  cases h0 : teardownLoop c tp 0 fuel <;> rw [h0] at h <;> simpa using h

/-- C7: when the provider lists no instance matching the cluster's name
pattern, `TeardownCluster` completes immediately — a single
`ListInstances` call, no `DeleteInstance` call, no confirmation polling —
and deletes the ClusterRecord from the registry. -/
theorem C7_teardown_idempotent (c : ClusterConfig) (tp : TeardownProvider)
    (fuel : Nat) (hfuel : 1 ≤ fuel) (hempty : tp.list 0 = []) :
    teardownCluster c tp fuel =
      some [Event.regSetStatus TEARING_DOWN_STATUS,
            Event.listInstances (teardownFilter c),
            Event.regDeleteCluster] := by
  match fuel, hfuel with
  | f + 1, _ =>
    rw [teardownCluster]
    simp only [teardownLoop, hempty]
    rfl

def tpEmpty : TeardownProvider where
  list := fun _ => []
  alive := fun _ _ _ => false

theorem C7_teardown_idempotent_witness :
    teardownCluster cEx tpEmpty 1 =
      some [Event.regSetStatus TEARING_DOWN_STATUS,
            Event.listInstances (teardownFilter cEx),
            Event.regDeleteCluster] :=
  C7_teardown_idempotent cEx tpEmpty 1 (by decide) rfl

/-! ## C8: CreateInstance result classification -/

/-- Modelled from the spec: `gce_api.py` is not under src/ (only its unit
test `gce_api_test.py` is).  Per §6, `CreateInstance` classifies the
provider's insert response by the presence of the `error` field alone: a
response containing `error` is a failure regardless of accompanying
`warnings`; absence of `error` is success even when `warnings` are
present; the failure is returned as a value, nothing is raised.  The
response dict is abstracted to the list of its top-level keys. -/
def createInstanceResultOk (respKeys : List String) : Bool :=
  !(respKeys.contains ("error"))

/-- C8: a response with an `error` key is classified failure regardless
of `warnings`; a response without `error` is classified success even with
`warnings` — including the exact responses of
`gce_api_test.py::testCreateInstance_{Success,SuccessWithWarning,Error}`. -/
theorem C8_create_instance_classification (keys : List String) :
    (("error") ∈ keys → createInstanceResultOk keys = false)
    ∧ ((("error") ∉ keys) → createInstanceResultOk keys = true)
    ∧ createInstanceResultOk [("name")] = true
    ∧ createInstanceResultOk [("name"), ("warnings")] = true
    ∧ createInstanceResultOk [("name"), ("error")] = false := by
  refine ⟨?_, ?_, rfl, rfl, rfl⟩
  · intro h
    have hc : keys.contains ("error") = true := List.elem_iff.2 h
    rw [createInstanceResultOk, hc]
    rfl
  · intro h
    have hc : keys.contains ("error") = false := by
      cases hcc : keys.contains ("error")
      · rfl
      · exact absurd (List.elem_iff.1 hcc) h
    rw [createInstanceResultOk, hc]
    rfl

theorem C8_create_instance_classification_witness :
    createInstanceResultOk [("name"), ("warnings")] = true
    ∧ createInstanceResultOk [("name"), ("error")] = false :=
  ⟨(C8_create_instance_classification [("name"), ("warnings")]).2.1 (by decide),
   (C8_create_instance_classification [("name"), ("error")]).1 (by decide)⟩

/-! ## C9: naming contract and end-to-end run -/

/-- Modelled from the spec: provider-side matching semantics of the
teardown discovery filter `name eq "<master>|^<pfx>-hadoop-worker-\d+$"` —
a name matches iff it is exactly the master name or consists of the
literal worker stem followed by one or more digits. -/
def MatchesTeardownFilter (c : ClusterConfig) (s : String) : Prop :=
  s = masterName c ∨
    ∃ ds : List Char, ds ≠ [] ∧ (∀ ch ∈ ds, ch.isDigit = true) ∧
      s = c.pfx ++ ("-hadoop-worker-") ++ String.mk ds

def regPutInstanceOf : Event → Option (String × String)
  | .regPutInstance n role _ => some (n, role)
  | _ => none

/-- Per-node daemon-flag check on a `CreateInstance` call: the master
carries truthy `NameNode` and `JobTracker` metadata keys, workers carry
truthy `DataNode` and `TaskTracker` keys. -/
def daemonFlagsOk (c : ClusterConfig) : Event → Bool
  | .createInstance n md =>
      if n == masterName c then
        (md.lookup ("NameNode") == some (MetaVal.int 1)) &&
        (md.lookup ("JobTracker") == some (MetaVal.int 1))
      else
        (md.lookup ("DataNode") == some (MetaVal.int 1)) &&
        (md.lookup ("TaskTracker") == some (MetaVal.int 1))
  | _ => true

/-- Three-worker configuration of the end-to-end scenario. -/
def c9Cfg : ClusterConfig :=
  ⟨"managed", "proj", "zone-a", "n1", "img", "net", 3, "", "bkt"⟩

/-- C9: the master is named `<pfx>-hadoop-master` and worker i
`<pfx>-hadoop-worker-<zero-padded-index>` (`pad3` reads back as the index
and is at least three characters wide); teardown's discovery filter is
built from exactly the master name and the worker regex, and both the
master name and every worker name satisfy the filter's matching
semantics; a successful 3-worker `StartHadoopCluster` run persists
exactly 1 master InstanceRecord and 3 worker InstanceRecords with indices
0, 1, 2, and every `CreateInstance` call carries the role-derived daemon
flags. -/
theorem C9_naming_contract (c : ClusterConfig) (i : Nat) :
    masterName c = c.pfx ++ ("-hadoop-master")
    ∧ workerName c i = c.pfx ++ ("-hadoop-worker-") ++ pad3 i
    ∧ decVal (pad3 i).data = i
    ∧ 3 ≤ (pad3 i).data.length
    ∧ teardownFilter c =
        ("name eq \"") ++ masterName c ++ ("|") ++
          (("^") ++ c.pfx ++ ("-hadoop-worker-\\d+$")) ++ ("\"")
    ∧ MatchesTeardownFilter c (masterName c)
    ∧ MatchesTeardownFilter c (workerName c i)
    ∧ (startHadoopCluster c9Cfg c1Provider).1 = .ok ()
    ∧ (startHadoopCluster c9Cfg c1Provider).2.filterMap regPutInstanceOf =
        [(("managed-hadoop-master"), ("master")),
         (("managed-hadoop-worker-000"), ("worker")),
         (("managed-hadoop-worker-001"), ("worker")),
         (("managed-hadoop-worker-002"), ("worker"))]
    ∧ (startHadoopCluster c9Cfg c1Provider).2.all (daemonFlagsOk c9Cfg) = true := by
  refine ⟨rfl, rfl, decVal_pad3List i, ?_, ?_, Or.inl rfl, ?_, rfl, rfl, rfl⟩
  · rw [pad3, pad3List]
    rw [show (String.mk (List.replicate (3 - (decRepr i).length) '0' ++ decRepr i)).data =
      List.replicate (3 - (decRepr i).length) '0' ++ decRepr i from rfl]
    rw [List.length_append, List.length_replicate]
    have h1 : 1 ≤ (decRepr i).length := by
      cases hd : decRepr i
      · exact absurd hd (decRepr_ne_nil i)
      · simp
    omega
  · rw [teardownFilter, workerNamePattern]
  · right
    exact ⟨pad3List i, pad3List_ne_nil i, pad3List_all_digits i, rfl⟩

/-! ## C10: constructor-time configuration resolution -/

/-- A value stored on a ClusterRecord attribute or present in the
constructor's `locals()`. -/
inductive AttrValue where
  | str (s : String)
  | nat (n : Nat)
deriving DecidableEq, Repr

/-- The nine configuration attribute names iterated by
`HadoopCluster.__init__`. -/
def configItems : List String :=
  [("prefix"), ("project"), ("name"), ("zone"), ("machinetype"),
   ("image"), ("network"), ("num_workers"), ("custom_command")]

/-- The reflective copy loop of `HadoopCluster.__init__`: for each item,
`setattr(self, item, getattr(self.cluster_info, item, None))` when a
persisted ClusterRecord resolved, else
`setattr(self, item, locals().get(item, None))`.  The record is a partial
attribute map (`none` = attribute missing); `callerArgs` is the
`locals()` map of constructor arguments. -/
def resolveAttrs (clusterInfo : Option (String → Option AttrValue))
    (callerArgs : String → Option AttrValue) :
    List (String × Option AttrValue) :=
  configItems.map (fun item =>
    (item, match clusterInfo with
           | some info => info item
           | none => callerArgs item))

/-- C10: when a ClusterRecord resolves, every one of the nine fields is
taken exclusively from the record — the resolved value is the record's
attribute (absent attribute gives `none`), independent of whatever the
caller passed; only when no record resolves are the caller's arguments
used. -/
theorem C10_config_resolution (info : String → Option AttrValue)
    (argsA argsB : String → Option AttrValue) (item : String)
    (hitem : item ∈ configItems) :
    (resolveAttrs (some info) argsA).lookup item = some (info item)
    ∧ (resolveAttrs (some info) argsA).lookup item =
        (resolveAttrs (some info) argsB).lookup item
    ∧ (resolveAttrs none argsA).lookup item = some (argsA item) := by
  fin_cases hitem <;> exact ⟨rfl, rfl, rfl⟩

/-- Record with a missing `project` attribute. -/
def c10InfoEx : String → Option AttrValue := fun item =>
  if item == ("project") then none else some (AttrValue.str (("rec-") ++ item))

def c10ArgsEx : String → Option AttrValue := fun item =>
  some (AttrValue.str (("arg-") ++ item))

theorem C10_config_resolution_witness :
    (resolveAttrs (some c10InfoEx) c10ArgsEx).lookup ("project") = some none
    ∧ (resolveAttrs none c10ArgsEx).lookup ("project") =
        some (some (AttrValue.str ("arg-project"))) := by
  have h := C10_config_resolution c10InfoEx c10ArgsEx c10ArgsEx ("project") (by decide)
  refine ⟨?_, ?_⟩
  · rw [h.1]
    rfl
  · rw [h.2.2]
    rfl
